import Mathlib

/-!
# NanoEngine: scene asset import and texture pipeline

A shallow embedding of `src/engine/src/model.cpp` (class `Model`): the texture
loader `textureFromFile`, the texture cache `loadMaterialTexture`, the mesh
builder `processMesh`, the node traversal `processNode` and `loadModel`.

Conventions of the embedding.

* The `Model` object, the heap of `std::make_shared<Texture>` allocations, the
  OpenGL context and `std::cout` are one explicit state record `ModelState`,
  passed through every member function.
* The collaborators (Assimp's `Importer::ReadFile`, `stbi_load`) are fields of a
  `World` record; every call of `stbi_load`, `stbi_image_free` and of an OpenGL
  entry point is appended to `ModelState.trace`, in program order.
* Numeric constants of `glad.h` and of Assimp's `scene.h` are fields of
  `Constants`; `khronos` holds their published values.
* A counted C array is a `List`. Reading a slot that is not there (a null array,
  an index past the end, a null object) is undefined behaviour in C++ and is the
  error `Fault` here.
* Reading an `int` or `GLenum` local that was never written does not trap on the
  target: the program goes on with whatever the stack slot holds. Such a read
  yields an indeterminate value, which may differ from one invocation to the
  next; `World.stack` supplies it as a function of the calls made so far.
* A `float` is carried as its bit pattern (a `Nat`); the code only copies floats.
-/

namespace NanoEngine

/-! ## Constants of the external headers -/

abbrev GLenum := Nat

/-- Numeric constants that `model.cpp` takes from `glad/glad.h` and from Assimp's
headers. The headers are not part of the sources, so the values are parameters. -/
structure Constants where
  GL_RED : GLenum
  GL_RGB : GLenum
  GL_RGBA : GLenum
  GL_SRGB : GLenum
  GL_SRGB_ALPHA : GLenum
  GL_TEXTURE_2D : GLenum
  GL_UNSIGNED_BYTE : GLenum
  GL_TEXTURE_WRAP_S : GLenum
  GL_TEXTURE_WRAP_T : GLenum
  GL_TEXTURE_MIN_FILTER : GLenum
  GL_TEXTURE_MAG_FILTER : GLenum
  GL_REPEAT : GLenum
  GL_LINEAR : GLenum
  AI_SCENE_FLAGS_INCOMPLETE : Nat
  deriving DecidableEq, Repr

/-- The values published in the OpenGL registry and in Assimp's `scene.h`. -/
def khronos : Constants where
  GL_RED := 0x1903
  GL_RGB := 0x1907
  GL_RGBA := 0x1908
  GL_SRGB := 0x8C40
  GL_SRGB_ALPHA := 0x8C42
  GL_TEXTURE_2D := 0x0DE1
  GL_UNSIGNED_BYTE := 0x1401
  GL_TEXTURE_WRAP_S := 0x2802
  GL_TEXTURE_WRAP_T := 0x2803
  GL_TEXTURE_MIN_FILTER := 0x2801
  GL_TEXTURE_MAG_FILTER := 0x2800
  GL_REPEAT := 0x2901
  GL_LINEAR := 0x2601
  AI_SCENE_FLAGS_INCOMPLETE := 0x1

/-- The upload formats chosen by the `switch` of `textureFromFile` are pairwise
distinct numbers; the comparisons `internalFormat == GL_RGB` and
`internalFormat == GL_RGBA` in the source rely on it. -/
def Constants.UploadDistinct (c : Constants) : Prop :=
  c.GL_RED ≠ c.GL_RGB ∧ c.GL_RED ≠ c.GL_RGBA ∧ c.GL_RGBA ≠ c.GL_RGB

instance (c : Constants) : Decidable c.UploadDistinct := by
  unfold Constants.UploadDistinct; infer_instance

/-- Assimp's `aiTextureType` (material.h). -/
inductive aiTextureType where
  | NONE | DIFFUSE | SPECULAR | AMBIENT | EMISSIVE | HEIGHT | NORMALS | SHININESS
  | OPACITY | DISPLACEMENT | LIGHTMAP | REFLECTION | BASE_COLOR | NORMAL_CAMERA
  | EMISSION_COLOR | METALNESS | DIFFUSE_ROUGHNESS | AMBIENT_OCCLUSION | UNKNOWN
  deriving DecidableEq, Repr

/-! ## Imported scene (Assimp data, read only) -/

/-- Bit pattern of a C `float`. -/
abbrev F32 := Nat

structure aiVector3D where
  x : F32
  y : F32
  z : F32
  deriving DecidableEq, Repr

/-- An `aiFace`: `mIndices` with `mNumIndices = mIndices.length`. -/
structure aiFace where
  mIndices : List Nat
  deriving DecidableEq, Repr

/-- An `aiMesh`. `mNumVertices` is shared by the five attribute arrays, so it is
a field of its own; an array that is null or shorter makes the read a fault.
`mTextureCoords0` is `mTextureCoords[0]`, whose nullness the code tests.
`mFaces` has `mNumFaces = mFaces.length`. -/
structure aiMesh where
  mNumVertices : Nat
  mVertices : List aiVector3D
  mNormals : List aiVector3D
  mTextureCoords0 : Option (List aiVector3D)
  mTangents : List aiVector3D
  mBitangents : List aiVector3D
  mFaces : List aiFace
  mMaterialIndex : Nat
  deriving DecidableEq, Repr

/-- An `aiMaterial`, seen through the two queries the code makes: the texture
paths declared for each texture type, in index order. -/
structure aiMaterial where
  textures : aiTextureType → List String

/-- The query `aiMaterial::GetTextureCount(type)`. -/
def aiMaterial.GetTextureCount (m : aiMaterial) (type : aiTextureType) : Nat :=
  (m.textures type).length

/-- The query `aiMaterial::GetTexture(type, 0, &path)` on a default-constructed `aiString`:
the path stays empty when no texture of that type is declared. -/
def aiMaterial.GetTexture0 (m : aiMaterial) (type : aiTextureType) : String :=
  (m.textures type).headD ""

/-- An `aiNode`: name, `mMeshes` (indices into the scene's mesh array) and
`mChildren`, each with its count as the list length. -/
inductive aiNode where
  | mk (mName : String) (mMeshes : List Nat) (mChildren : List aiNode)

/-- An `aiScene`; `mRootNode = none` is the null pointer. -/
structure aiScene where
  mFlags : Nat
  mRootNode : Option aiNode
  mMeshes : List aiMesh
  mMaterials : List aiMaterial

/-! ## Engine data -/

structure Vec2 where
  x : F32
  y : F32
  deriving DecidableEq, Repr

structure Vec3 where
  x : F32
  y : F32
  z : F32
  deriving DecidableEq, Repr

structure Vertex where
  position : Vec3
  normal : Vec3
  textureCoordinates : Vec2
  tangent : Vec3
  bitangent : Vec3
  deriving DecidableEq, Repr

/-- Modelled from the spec: the `Texture` struct (its header is not part of the
sources): a GPU texture identifier and the source path. -/
structure Texture where
  id : Nat
  path : String
  deriving DecidableEq, Repr

/-- A `std::shared_ptr<Texture>` that is not null: the index of the allocation in
`ModelState.heap`. -/
abbrev TexturePtr := Nat

/-- Modelled from the spec: the `Material` struct (its header is not part of the
sources): five texture-role slots, each a "present" flag and a shared reference
to a `Texture` (`none` is the null `shared_ptr`). A default-constructed
`Material` has every flag false and every reference null. -/
structure Material where
  useTextureAlbedo : Bool := false
  textureAlbedo : Option TexturePtr := none
  useTextureMetallicRoughness : Bool := false
  textureMetallicRoughness : Option TexturePtr := none
  useTextureNormal : Bool := false
  textureNormal : Option TexturePtr := none
  useTextureAmbientOcclusion : Bool := false
  textureAmbientOcclusion : Option TexturePtr := none
  useTextureEmissive : Bool := false
  textureEmissive : Option TexturePtr := none
  deriving DecidableEq, Repr

/-- Modelled from the spec: the `Mesh` class (its header is not part of the
sources): the value built by `Mesh(vertices, indices, material)`. What the
constructor does besides storing its arguments is outside the sources. -/
structure Mesh where
  vertices : List Vertex
  indices : List Nat
  material : Material
  deriving DecidableEq, Repr

/-! ## Collaborators and state -/

/-- What `stbi_load` writes on success. -/
structure Image where
  width : Int
  height : Int
  numChannels : Int
  data : List Nat
  deriving DecidableEq, Repr

/-- Indeterminate contents of the locals of one invocation of `textureFromFile`
that a path may leave unwritten. -/
structure Indeterminate where
  width : Int
  height : Int
  numChannels : Int
  format : GLenum
  deriving DecidableEq, Repr

/-- One call of a collaborator with side effects, as recorded in the trace. -/
inductive Call where
  | stbi_load (path : String)
  | stbi_image_free
  | glGenTextures (id : Nat)
  | glBindTexture (target : GLenum) (id : Nat)
  | glTexImage2D (target internalFormat : GLenum) (width height : Int)
      (format type : GLenum) (data : Option (List Nat))
  | glGenerateMipmap (target : GLenum)
  | glTexParameteri (target pname param : GLenum)
  deriving DecidableEq, Repr

/-- Result of `Assimp::Importer::ReadFile`: the scene pointer (`none` is null)
and what `GetErrorString()` returns afterwards. -/
structure ImportResult where
  scene : Option aiScene
  errorString : String

/-- The collaborators outside the program. -/
structure World where
  ReadFile : String → ImportResult
  stbi_load : String → Option Image
  /-- What the never-written locals of an invocation of `textureFromFile` hold,
  given the collaborator calls made before the invocation. -/
  stack : List Call → Indeterminate

/-- The `Model` object together with the ambient state its member functions
touch. -/
structure ModelState where
  /-- The member `std::shared_ptr<Material> materialOverride`; `none` is null. -/
  materialOverride : Option Material
  directory : String
  meshes : List Mesh
  /-- The member `std::map<std::string, std::shared_ptr<Texture>> texturesLoaded`. -/
  texturesLoaded : List (String × TexturePtr)
  /-- Allocations of `std::make_shared<Texture>()`, oldest first. -/
  heap : List Texture
  /-- The texture name the next `glGenTextures` hands out. -/
  glNext : Nat
  trace : List Call
  cout : List String
  deriving DecidableEq, Repr

/-- Undefined behaviour the embedding makes explicit. -/
inductive Fault where
  | invalidRead
  | nullDereference
  deriving DecidableEq, Repr

/-- The read `xs[i]` on a C array. -/
def readAt {α : Type} (xs : List α) (i : Nat) : Except Fault α :=
  match xs[i]? with
  | some x => .ok x
  | none => .error .invalidRead

/-! ## `std::map` operations used by the code -/

/-- The lookup `texturesLoaded.find(key)`; `none` is `end()`. -/
def mapFind (m : List (String × TexturePtr)) (key : String) : Option TexturePtr :=
  m.lookup key

/-- The call `texturesLoaded.insert(pair(key, value))`: no effect when the key exists. -/
def mapInsert (m : List (String × TexturePtr)) (key : String) (value : TexturePtr) :
    List (String × TexturePtr) :=
  match m.lookup key with
  | some _ => m
  | none => m ++ [(key, value)]

/-! ## Texture loader -/

def ModelState.call (s : ModelState) (c : Call) : ModelState :=
  { s with trace := s.trace ++ [c] }

def ModelState.print (s : ModelState) (line : String) : ModelState :=
  { s with cout := s.cout ++ [line] }

/-- The `switch (numChannels)` of `textureFromFile`; without a `default` the
local `format` keeps its indeterminate content. -/
def uploadFormat (c : Constants) (frame : Indeterminate) (numChannels : Int) : GLenum :=
  if numChannels = 1 then c.GL_RED
  else if numChannels = 3 then c.GL_RGB
  else if numChannels = 4 then c.GL_RGBA
  else frame.format

/-- The internal format: `format`, replaced by its sRGB variant for
`aiTextureType_DIFFUSE`. -/
def internalFormatOf (c : Constants) (type : aiTextureType) (format : GLenum) : GLenum :=
  if type = .DIFFUSE then
    if format = c.GL_RGB then c.GL_SRGB
    else if format = c.GL_RGBA then c.GL_SRGB_ALPHA
    else format
  else format

/-- Method `Model::textureFromFile`: returns the texture id. -/
def textureFromFile (c : Constants) (w : World) (fileName directory : String)
    (type : aiTextureType) (s : ModelState) : Nat × ModelState :=
  let frame := w.stack s.trace
  let path := directory ++ "/" ++ fileName
  let loaded := w.stbi_load path
  let s := s.call (.stbi_load path)
  let width := match loaded with | some img => img.width | none => frame.width
  let height := match loaded with | some img => img.height | none => frame.height
  let numChannels :=
    match loaded with | some img => img.numChannels | none => frame.numChannels
  let data := loaded.map (·.data)
  let s :=
    match data with
    | none => (s.print "Failed to load texture data").call .stbi_image_free
    | some _ => s
  let format := uploadFormat c frame numChannels
  let internalFormat := internalFormatOf c type format
  let textureId := s.glNext
  let s := { s with glNext := s.glNext + 1 }
  let s := s.call (.glGenTextures textureId)
  let s := s.call (.glBindTexture c.GL_TEXTURE_2D textureId)
  let s := s.call
    (.glTexImage2D c.GL_TEXTURE_2D internalFormat width height format c.GL_UNSIGNED_BYTE data)
  let s := s.call (.glGenerateMipmap c.GL_TEXTURE_2D)
  let s := s.call (.glTexParameteri c.GL_TEXTURE_2D c.GL_TEXTURE_WRAP_S c.GL_REPEAT)
  let s := s.call (.glTexParameteri c.GL_TEXTURE_2D c.GL_TEXTURE_WRAP_T c.GL_REPEAT)
  let s := s.call (.glTexParameteri c.GL_TEXTURE_2D c.GL_TEXTURE_MIN_FILTER c.GL_LINEAR)
  let s := s.call (.glTexParameteri c.GL_TEXTURE_2D c.GL_TEXTURE_MAG_FILTER c.GL_LINEAR)
  let s := s.call .stbi_image_free
  (textureId, s)

/-! ## Texture cache -/

/-- Method `Model::loadMaterialTexture`: loads the first texture of the given type. -/
def loadMaterialTexture (c : Constants) (w : World) (material : aiMaterial)
    (type : aiTextureType) (s : ModelState) : TexturePtr × ModelState :=
  let path := material.GetTexture0 type
  match mapFind s.texturesLoaded path with
  | some found => (found, s)
  | none =>
    let texture : TexturePtr := s.heap.length
    let s := { s with heap := s.heap ++ [Texture.mk 0 ""] }
    let s := s.print ("Process material: " ++ path)
    let r := textureFromFile c w path s.directory type s
    let s := r.2
    let s := { s with heap := s.heap.modify (fun (t : Texture) => { t with id := r.1 }) texture }
    let s := { s with heap := s.heap.modify (fun (t : Texture) => { t with path := path }) texture }
    let s := { s with texturesLoaded := mapInsert s.texturesLoaded path texture }
    (texture, s)

/-! ## Mesh builder -/

/-- Body of the vertex loop of `processMesh` (lines 66-109) for slot `i`. -/
def processVertex (mesh : aiMesh) (i : Nat) : Except Fault Vertex := do
  let p ← readAt mesh.mVertices i
  let position : Vec3 := ⟨p.x, p.y, p.z⟩
  let n ← readAt mesh.mNormals i
  let normal : Vec3 := ⟨n.x, n.y, n.z⟩
  let textureCoordinates : Vec2 ←
    match mesh.mTextureCoords0 with
    | some uv => do
      let t ← readAt uv i
      pure ⟨t.x, t.y⟩
    | none => pure ⟨0, 0⟩
  let t ← readAt mesh.mTangents 0
  let tangent : Vec3 := ⟨t.x, t.y, t.z⟩
  let b ← readAt mesh.mBitangents 0
  let bitangent : Vec3 := ⟨b.x, b.y, b.z⟩
  pure { position, normal, textureCoordinates, tangent, bitangent }

/-- The loop `for (i = 0; i < mesh->mNumVertices; i++)`: `remaining` iterations
are left, `i` is the loop variable, `vertices` the vector built so far. -/
def vertexLoop (mesh : aiMesh) : (remaining : Nat) → (i : Nat) → (vertices : List Vertex) →
    Except Fault (List Vertex)
  | 0, _, vertices => .ok vertices
  | remaining + 1, i, vertices =>
    match processVertex mesh i with
    | .error e => .error e
    | .ok vertex => vertexLoop mesh remaining (i + 1) (vertices ++ [vertex])

/-- The two nested index loops of `processMesh` (lines 113-119); `push_back` is
appending at the end. -/
def indexLoop (mesh : aiMesh) : List Nat :=
  mesh.mFaces.foldl
    (fun indices face => face.mIndices.foldl (fun indices j => indices ++ [j]) indices) []

/-- The five texture blocks of `processMesh` (lines 126-155), in source order. -/
def resolveTextures (c : Constants) (w : World) (aiMat : aiMaterial) (material : Material)
    (s : ModelState) : Material × ModelState :=
  -- albedo
  let a : Material × ModelState :=
    if aiMat.GetTextureCount .DIFFUSE ≠ 0 then
      let r := loadMaterialTexture c w aiMat .DIFFUSE s
      ({ material with useTextureAlbedo := true, textureAlbedo := some r.1 }, r.2)
    else (material, s)
  -- metallicRoughness
  let m : Material × ModelState :=
    if aiMat.GetTextureCount .UNKNOWN ≠ 0 then
      let r := loadMaterialTexture c w aiMat .UNKNOWN a.2
      ({ a.1 with useTextureMetallicRoughness := true, textureMetallicRoughness := some r.1 },
        r.2)
    else a
  -- normal
  let n : Material × ModelState :=
    if aiMat.GetTextureCount .NORMALS ≠ 0 then
      let r := loadMaterialTexture c w aiMat .NORMALS m.2
      ({ m.1 with useTextureNormal := true, textureNormal := some r.1 }, r.2)
    else m
  -- ambient occlusion
  let o : Material × ModelState :=
    if aiMat.GetTextureCount .LIGHTMAP ≠ 0 then
      let r := loadMaterialTexture c w aiMat .LIGHTMAP n.2
      ({ n.1 with useTextureAmbientOcclusion := true, textureAmbientOcclusion := some r.1 },
        r.2)
    else n
  -- emissive
  if aiMat.GetTextureCount .EMISSIVE ≠ 0 then
    let r := loadMaterialTexture c w aiMat .EMISSIVE o.2
    ({ o.1 with useTextureEmissive := true, textureEmissive := some r.1 }, r.2)
  else o

/-- Method `Model::processMesh`: converts an Assimp mesh to a `Mesh`. The test
`mesh->mMaterialIndex >= 0` is on an `unsigned int` and always holds. -/
def processMesh (c : Constants) (w : World) (mesh : aiMesh) (scene : aiScene)
    (s : ModelState) : Except Fault (Mesh × ModelState) :=
  let material : Material :=
    match s.materialOverride with
    | some m => m
    | none => {}
  match vertexLoop mesh mesh.mNumVertices 0 [] with
  | .error e => .error e
  | .ok vertices =>
    let indices := indexLoop mesh
    match s.materialOverride with
    | some _ => .ok ({ vertices, indices, material }, s)
    | none =>
      match readAt scene.mMaterials mesh.mMaterialIndex with
      | .error e => .error e
      | .ok aiMat =>
        let r := resolveTextures c w aiMat material s
        .ok ({ vertices, indices, material := r.1 }, r.2)

/-! ## Scene importer -/

/-- The mesh loop of `processNode` (lines 42-45) over the node's `mMeshes`. -/
def meshLoop (c : Constants) (w : World) (scene : aiScene) :
    List Nat → ModelState → Except Fault ModelState
  | [], s => .ok s
  | k :: rest, s =>
    match readAt scene.mMeshes k with
    | .error e => .error e
    | .ok mesh =>
      match processMesh c w mesh scene s with
      | .error e => .error e
      | .ok r => meshLoop c w scene rest { r.2 with meshes := r.2.meshes ++ [r.1] }

mutual
/-- Method `Model::processNode`: recursively load all meshes in the node tree. -/
def processNode (c : Constants) (w : World) (scene : aiScene) :
    aiNode → ModelState → Except Fault ModelState
  | .mk mName mMeshes mChildren, s =>
    let s := s.print ("Process node: " ++ mName)
    match meshLoop c w scene mMeshes s with
    | .error e => .error e
    | .ok s => processChildren c w scene mChildren s
/-- The child loop of `processNode` (lines 48-50). -/
def processChildren (c : Constants) (w : World) (scene : aiScene) :
    List aiNode → ModelState → Except Fault ModelState
  | [], s => .ok s
  | child :: rest, s =>
    match processNode c w scene child s with
    | .error e => .error e
    | .ok s => processChildren c w scene rest s
end

/-- The call `std::string::find_last_of(ch)`; `none` is `npos`. -/
def find_last_of (s : String) (ch : Char) : Option Nat :=
  (List.range s.length).reverse.find? (fun i => s.toList[i]? == some ch)

/-- The call `std::string::substr(0, count)`; with `npos` the whole string. -/
def substr0 (s : String) (count : Option Nat) : String :=
  match count with
  | none => s
  | some n => String.mk (s.toList.take n)

/-- The condition of the `if` in `loadModel` (line 27). -/
def sceneRejected (c : Constants) (scene : Option aiScene) : Bool :=
  match scene with
  | none => true
  | some sc => sc.mFlags &&& c.AI_SCENE_FLAGS_INCOMPLETE ≠ 0 || sc.mRootNode.isNone

/-- Method `Model::loadModel`; the constructors `Model(path)` and
`Model(path, material)` call it on the freshly initialised object. -/
def loadModel (c : Constants) (w : World) (path : String) (s : ModelState) :
    Except Fault ModelState :=
  let imported := w.ReadFile path
  let s :=
    if sceneRejected c imported.scene then s.print ("ERROR::ASSIMP::" ++ imported.errorString)
    else s
  let s := { s with directory := substr0 path (find_last_of path '/') }
  -- processNode(scene->mRootNode, scene)
  match imported.scene with
  | none => .error .nullDereference
  | some scene =>
    match scene.mRootNode with
    | none => .error .nullDereference
    | some root => processNode c w scene root s

/-! ## Observations and reference definitions -/

/-- Number of `stbi_load` calls in a trace. `textureFromFile` is the only
function that calls `stbi_load`, once per invocation, so this counts the
invocations of the loader. -/
def loaderCalls (tr : List Call) : Nat :=
  (tr.filter (fun c => match c with | .stbi_load _ => true | _ => false)).length

/-- The `(internalFormat, format)` arguments of the `glTexImage2D` calls in a
trace, in order. -/
def texImageFormats (tr : List Call) : List (GLenum × GLenum) :=
  tr.filterMap (fun c => match c with | .glTexImage2D _ i _ _ f _ _ => some (i, f) | _ => none)

/-- Assimp's invariant on a mesh with normals and tangents: every vertex
attribute array that is present has `mNumVertices` entries. -/
def aiMesh.WellFormed (mesh : aiMesh) : Prop :=
  mesh.mVertices.length = mesh.mNumVertices ∧ mesh.mNormals.length = mesh.mNumVertices ∧
    mesh.mTangents.length = mesh.mNumVertices ∧ mesh.mBitangents.length = mesh.mNumVertices ∧
    ∀ uv ∈ mesh.mTextureCoords0, uv.length = mesh.mNumVertices

instance (mesh : aiMesh) : Decidable mesh.WellFormed := by
  unfold aiMesh.WellFormed; infer_instance

/-- The mesh reference `k` of a node can be built in state `s`: the index is in
the scene's mesh array, the mesh is well formed, and its material index is in
the scene's material array unless an override is set. -/
def MeshRefOk (scene : aiScene) (s : ModelState) (k : Nat) : Prop :=
  match scene.mMeshes[k]? with
  | none => False
  | some mesh =>
    mesh.WellFormed ∧
      (s.materialOverride.isSome = true ∨ mesh.mMaterialIndex < scene.mMaterials.length)

instance (scene : aiScene) (s : ModelState) (k : Nat) : Decidable (MeshRefOk scene s k) := by
  unfold MeshRefOk; split <;> infer_instance

mutual
/-- The depth-first pre-order list of mesh references below a node: the node's
own references in listed order, then those of each child in declared order. -/
def flattenRefs : aiNode → List Nat
  | .mk _ mMeshes mChildren => mMeshes ++ flattenChildren mChildren
/-- Concatenation of `flattenRefs` over a list of children. -/
def flattenChildren : List aiNode → List Nat
  | [] => []
  | child :: rest => flattenRefs child ++ flattenChildren rest
end

mutual
/-- Total number of mesh references over all nodes of a tree. -/
def totalMeshRefs : aiNode → Nat
  | .mk _ mMeshes mChildren => mMeshes.length + totalChildRefs mChildren
/-- Sum of `totalMeshRefs` over a list of children. -/
def totalChildRefs : List aiNode → Nat
  | [] => 0
  | child :: rest => totalMeshRefs child + totalChildRefs rest
end

/-- The reference flattening `[build(scene.meshes[k]) for k in refs]`: the meshes
built for a list of references, one after the other, each build starting in the
state the previous one left (the texture cache is shared between builds). -/
def buildAll (c : Constants) (w : World) (scene : aiScene) :
    List Nat → ModelState → Except Fault (List Mesh × ModelState)
  | [], s => .ok ([], s)
  | k :: rest, s =>
    match readAt scene.mMeshes k with
    | .error e => .error e
    | .ok mesh =>
      match processMesh c w mesh scene s with
      | .error e => .error e
      | .ok r =>
        match buildAll c w scene rest r.2 with
        | .error e => .error e
        | .ok q => .ok (r.1 :: q.1, q.2)

/-- Two states agree on everything a build reads or writes: all fields except
the mesh list and the output log. -/
def SameResources (s t : ModelState) : Prop :=
  s.materialOverride = t.materialOverride ∧ s.directory = t.directory ∧
    s.texturesLoaded = t.texturesLoaded ∧ s.heap = t.heap ∧ s.glNext = t.glNext ∧
    s.trace = t.trace

/-- The outcome of a traversal started with mesh list `base` matches the outcome
of the reference flattening: the same fault, or the same meshes appended to
`base` and the same resources. -/
def Flattens (base : List Mesh) :
    Except Fault ModelState → Except Fault (List Mesh × ModelState) → Prop
  | .error e, .error e' => e = e'
  | .error _, .ok _ => False
  | .ok _, .error _ => False
  | .ok s, .ok q => s.meshes = base ++ q.1 ∧ SameResources s q.2

/-- One texture role of a resolved `Material`, read against the scene material
and the cache left by the resolution: the flag is set exactly when the role
declares a texture; then the slot holds what the cache maps the first declared
path to; otherwise the slot is null. -/
def RoleResolved (aiMat : aiMaterial) (type : aiTextureType) (flag : Bool)
    (slot : Option TexturePtr) (s : ModelState) : Prop :=
  (flag = true ↔ 0 < aiMat.GetTextureCount type) ∧
    (aiMat.GetTextureCount type = 0 → slot = none) ∧
    (0 < aiMat.GetTextureCount type →
      ∃ path p, (aiMat.textures type).head? = some path ∧ slot = some p ∧
        mapFind s.texturesLoaded path = some p)

/-! ## Concrete inputs -/

def demoImage : Image := { width := 2, height := 2, numChannels := 3, data := [10, 20, 30] }

def demoGrayAlpha : Image := { width := 1, height := 1, numChannels := 2, data := [5, 6] }

def demoMaterial : aiMaterial where
  textures := fun t =>
    match t with
    | .DIFFUSE => ["a.png"]
    | .NORMALS => ["a.png"]
    | .LIGHTMAP => ["b.png"]
    | .EMISSIVE => ["missing.png"]
    | _ => []

def demoMesh : aiMesh where
  mNumVertices := 2
  mVertices := [⟨1, 2, 3⟩, ⟨4, 5, 6⟩]
  mNormals := [⟨7, 8, 9⟩, ⟨10, 11, 12⟩]
  mTextureCoords0 := some [⟨13, 14, 0⟩, ⟨15, 16, 0⟩]
  mTangents := [⟨17, 18, 19⟩, ⟨20, 21, 22⟩]
  mBitangents := [⟨23, 24, 25⟩, ⟨26, 27, 28⟩]
  mFaces := [⟨[0, 1, 0]⟩, ⟨[1, 0, 1]⟩]
  mMaterialIndex := 0

/-- A mesh whose material index is outside every material list. -/
def demoOrphanMesh : aiMesh := { demoMesh with mMaterialIndex := 7 }

/-- A mesh without UV channel, hence without tangents and bitangents: the
importer computes a tangent space only for meshes that have one. -/
def demoBareMesh : aiMesh where
  mNumVertices := 2
  mVertices := [⟨1, 2, 3⟩, ⟨4, 5, 6⟩]
  mNormals := [⟨7, 8, 9⟩, ⟨10, 11, 12⟩]
  mTextureCoords0 := none
  mTangents := []
  mBitangents := []
  mFaces := [⟨[0, 1, 0]⟩]
  mMaterialIndex := 0

def demoRoot : aiNode := .mk "root" [0] [.mk "child" [1, 0] []]

/-- A scene flagged incomplete (`mFlags = AI_SCENE_FLAGS_INCOMPLETE`) that still
has a root node. -/
def demoScene : aiScene where
  mFlags := 1
  mRootNode := some demoRoot
  mMeshes := [demoMesh, demoOrphanMesh]
  mMaterials := [demoMaterial]

def demoRootless : aiScene where
  mFlags := 0
  mRootNode := none
  mMeshes := [demoMesh]
  mMaterials := [demoMaterial]

def demoWorld : World where
  ReadFile := fun p =>
    if p = "assets/scene.gltf" then { scene := some demoScene, errorString := "incomplete" }
    else if p = "assets/rootless.gltf" then { scene := some demoRootless, errorString := "" }
    else { scene := none, errorString := "Unable to open file" }
  stbi_load := fun p =>
    if p = "assets/a.png" then some demoImage
    else if p = "assets/b.png" then some demoGrayAlpha
    else none
  stack := fun _ => { width := 640, height := 480, numChannels := 0, format := 0 }

def demoState : ModelState where
  materialOverride := none
  directory := "assets"
  meshes := []
  texturesLoaded := []
  heap := []
  glNext := 1
  trace := []
  cout := []

def demoOverride : Material := { useTextureAlbedo := true, textureAlbedo := some 0 }

/-- The object right after the member initialisers of `Model(path, material)`,
before `loadModel` runs. -/
def demoFresh : ModelState :=
  { demoState with
    materialOverride := some demoOverride, directory := "", heap := [⟨9, "given.png"⟩],
    glNext := 10 }

def demoOverrideState : ModelState :=
  { demoState with
    materialOverride := some demoOverride, heap := [⟨9, "given.png"⟩], glNext := 10 }

/-- One texture block of `resolveTextures`: when the scene material declares a
texture of `type`, load it through the cache and write the role's two fields
with `set`; otherwise pass the material and the state on. -/
def resolveRole (c : Constants) (w : World) (aiMat : aiMaterial) (type : aiTextureType)
    (set : Material → TexturePtr → Material) (acc : Material × ModelState) :
    Material × ModelState :=
  if aiMat.GetTextureCount type ≠ 0 then
    (set acc.1 (loadMaterialTexture c w aiMat type acc.2).1,
      (loadMaterialTexture c w aiMat type acc.2).2)
  else acc

/-! ## Lemmas: texture loader -/

theorem modify_append_last {α : Type} (f : α → α) (l : List α) (x : α) :
    (l ++ [x]).modify f l.length = l ++ [f x] := by
  induction l with
  | nil => rfl
  | cons a l ih => simpa [List.modify] using ih

theorem lookup_append_new (m : List (String × TexturePtr)) (k : String) (v : TexturePtr)
    (h : m.lookup k = none) : (m ++ [(k, v)]).lookup k = some v := by
  induction m with
  | nil => simp [List.lookup]
  | cons a m ih =>
    obtain ⟨k', v'⟩ := a
    simp only [List.cons_append, List.lookup_cons] at h ⊢
    cases hk : (k == k') with
    | true => simp [hk] at h
    | false => simp only [hk] at h ⊢; exact ih h

theorem lookup_append_old (m : List (String × TexturePtr)) (k k' : String) (v p : TexturePtr)
    (h : m.lookup k = some p) : (m ++ [(k', v)]).lookup k = some p := by
  induction m with
  | nil => simp [List.lookup] at h
  | cons a m ih =>
    obtain ⟨k1, v1⟩ := a
    simp only [List.cons_append, List.lookup_cons] at h ⊢
    cases hk : (k == k1) with
    | true => simpa [hk] using h
    | false => simp only [hk] at h ⊢; exact ih h

/-- The calls one invocation of `textureFromFile` appends when the image decodes. -/
theorem textureFromFile_decoded (c : Constants) (w : World) (f d : String) (t : aiTextureType)
    (s : ModelState) (img : Image) (h : w.stbi_load (d ++ "/" ++ f) = some img) :
    textureFromFile c w f d t s =
      (s.glNext, { s with
        glNext := s.glNext + 1
        trace := s.trace ++
          [.stbi_load (d ++ "/" ++ f), .glGenTextures s.glNext,
           .glBindTexture c.GL_TEXTURE_2D s.glNext,
           .glTexImage2D c.GL_TEXTURE_2D
             (internalFormatOf c t (uploadFormat c (w.stack s.trace) img.numChannels)) img.width img.height
             (uploadFormat c (w.stack s.trace) img.numChannels) c.GL_UNSIGNED_BYTE (some img.data),
           .glGenerateMipmap c.GL_TEXTURE_2D,
           .glTexParameteri c.GL_TEXTURE_2D c.GL_TEXTURE_WRAP_S c.GL_REPEAT,
           .glTexParameteri c.GL_TEXTURE_2D c.GL_TEXTURE_WRAP_T c.GL_REPEAT,
           .glTexParameteri c.GL_TEXTURE_2D c.GL_TEXTURE_MIN_FILTER c.GL_LINEAR,
           .glTexParameteri c.GL_TEXTURE_2D c.GL_TEXTURE_MAG_FILTER c.GL_LINEAR,
           .stbi_image_free] }) := by
  simp [textureFromFile, h, ModelState.call, ModelState.print]

/-- The calls one invocation of `textureFromFile` appends when decoding fails:
the failure is printed and the upload goes on with indeterminate arguments. -/
theorem textureFromFile_undecoded (c : Constants) (w : World) (f d : String)
    (t : aiTextureType) (s : ModelState) (h : w.stbi_load (d ++ "/" ++ f) = none) :
    textureFromFile c w f d t s =
      (s.glNext, { s with
        glNext := s.glNext + 1
        cout := s.cout ++ ["Failed to load texture data"]
        trace := s.trace ++
          [.stbi_load (d ++ "/" ++ f), .stbi_image_free, .glGenTextures s.glNext,
           .glBindTexture c.GL_TEXTURE_2D s.glNext,
           .glTexImage2D c.GL_TEXTURE_2D
             (internalFormatOf c t (uploadFormat c (w.stack s.trace) (w.stack s.trace).numChannels)) (w.stack s.trace).width
             (w.stack s.trace).height (uploadFormat c (w.stack s.trace) (w.stack s.trace).numChannels) c.GL_UNSIGNED_BYTE none,
           .glGenerateMipmap c.GL_TEXTURE_2D,
           .glTexParameteri c.GL_TEXTURE_2D c.GL_TEXTURE_WRAP_S c.GL_REPEAT,
           .glTexParameteri c.GL_TEXTURE_2D c.GL_TEXTURE_WRAP_T c.GL_REPEAT,
           .glTexParameteri c.GL_TEXTURE_2D c.GL_TEXTURE_MIN_FILTER c.GL_LINEAR,
           .glTexParameteri c.GL_TEXTURE_2D c.GL_TEXTURE_MAG_FILTER c.GL_LINEAR,
           .stbi_image_free] }) := by
  simp [textureFromFile, h, ModelState.call, ModelState.print]

/-- Every invocation of `textureFromFile` makes exactly one `stbi_load` call. -/
theorem textureFromFile_loaderCalls (c : Constants) (w : World) (f d : String)
    (t : aiTextureType) (s : ModelState) :
    loaderCalls (textureFromFile c w f d t s).2.trace = loaderCalls s.trace + 1 := by
  cases h : w.stbi_load (d ++ "/" ++ f) with
  | none => rw [textureFromFile_undecoded c w f d t s h]; simp [loaderCalls, List.filter_append]
  | some img =>
    rw [textureFromFile_decoded c w f d t s img h]; simp [loaderCalls, List.filter_append]


/-! ## Lemmas: texture cache -/

theorem loadMaterialTexture_hit (c : Constants) (w : World) (m : aiMaterial)
    (t : aiTextureType) (s : ModelState) (p : TexturePtr)
    (h : mapFind s.texturesLoaded (m.GetTexture0 t) = some p) :
    loadMaterialTexture c w m t s = (p, s) := by
  simp [loadMaterialTexture, h]

/-- A cache miss on an image that decodes: the whole resulting state. -/
theorem loadMaterialTexture_miss_decoded (c : Constants) (w : World) (m : aiMaterial)
    (t : aiTextureType) (s : ModelState) (img : Image)
    (h : mapFind s.texturesLoaded (m.GetTexture0 t) = none)
    (hd : w.stbi_load (s.directory ++ "/" ++ m.GetTexture0 t) = some img) :
    loadMaterialTexture c w m t s =
      (s.heap.length, { s with
        heap := s.heap ++ [⟨s.glNext, m.GetTexture0 t⟩]
        texturesLoaded := s.texturesLoaded ++ [(m.GetTexture0 t, s.heap.length)]
        cout := s.cout ++ ["Process material: " ++ m.GetTexture0 t]
        glNext := s.glNext + 1
        trace := s.trace ++
          [.stbi_load (s.directory ++ "/" ++ m.GetTexture0 t), .glGenTextures s.glNext,
           .glBindTexture c.GL_TEXTURE_2D s.glNext,
           .glTexImage2D c.GL_TEXTURE_2D
             (internalFormatOf c t (uploadFormat c (w.stack s.trace) img.numChannels)) img.width img.height
             (uploadFormat c (w.stack s.trace) img.numChannels) c.GL_UNSIGNED_BYTE (some img.data),
           .glGenerateMipmap c.GL_TEXTURE_2D,
           .glTexParameteri c.GL_TEXTURE_2D c.GL_TEXTURE_WRAP_S c.GL_REPEAT,
           .glTexParameteri c.GL_TEXTURE_2D c.GL_TEXTURE_WRAP_T c.GL_REPEAT,
           .glTexParameteri c.GL_TEXTURE_2D c.GL_TEXTURE_MIN_FILTER c.GL_LINEAR,
           .glTexParameteri c.GL_TEXTURE_2D c.GL_TEXTURE_MAG_FILTER c.GL_LINEAR,
           .stbi_image_free] }) := by
  have hl : List.lookup (m.GetTexture0 t) s.texturesLoaded = none := h
  simp [loadMaterialTexture, h, textureFromFile, hd, ModelState.call, ModelState.print,
    modify_append_last, mapInsert, hl]

/-- A cache miss on a file that does not decode: the whole resulting state. -/
theorem loadMaterialTexture_miss_undecoded (c : Constants) (w : World) (m : aiMaterial)
    (t : aiTextureType) (s : ModelState)
    (h : mapFind s.texturesLoaded (m.GetTexture0 t) = none)
    (hd : w.stbi_load (s.directory ++ "/" ++ m.GetTexture0 t) = none) :
    loadMaterialTexture c w m t s =
      (s.heap.length, { s with
        heap := s.heap ++ [⟨s.glNext, m.GetTexture0 t⟩]
        texturesLoaded := s.texturesLoaded ++ [(m.GetTexture0 t, s.heap.length)]
        cout := s.cout ++ ["Process material: " ++ m.GetTexture0 t, "Failed to load texture data"]
        glNext := s.glNext + 1
        trace := s.trace ++
          [.stbi_load (s.directory ++ "/" ++ m.GetTexture0 t), .stbi_image_free,
           .glGenTextures s.glNext, .glBindTexture c.GL_TEXTURE_2D s.glNext,
           .glTexImage2D c.GL_TEXTURE_2D
             (internalFormatOf c t (uploadFormat c (w.stack s.trace) (w.stack s.trace).numChannels)) (w.stack s.trace).width
             (w.stack s.trace).height (uploadFormat c (w.stack s.trace) (w.stack s.trace).numChannels) c.GL_UNSIGNED_BYTE none,
           .glGenerateMipmap c.GL_TEXTURE_2D,
           .glTexParameteri c.GL_TEXTURE_2D c.GL_TEXTURE_WRAP_S c.GL_REPEAT,
           .glTexParameteri c.GL_TEXTURE_2D c.GL_TEXTURE_WRAP_T c.GL_REPEAT,
           .glTexParameteri c.GL_TEXTURE_2D c.GL_TEXTURE_MIN_FILTER c.GL_LINEAR,
           .glTexParameteri c.GL_TEXTURE_2D c.GL_TEXTURE_MAG_FILTER c.GL_LINEAR,
           .stbi_image_free] }) := by
  have hl : List.lookup (m.GetTexture0 t) s.texturesLoaded = none := h
  simp [loadMaterialTexture, h, textureFromFile, hd, ModelState.call, ModelState.print,
    modify_append_last, mapInsert, hl]

/-- What a cache miss does to the fields the cache owns, whatever the decoder
returned. -/
theorem loadMaterialTexture_miss (c : Constants) (w : World) (m : aiMaterial)
    (t : aiTextureType) (s : ModelState)
    (h : mapFind s.texturesLoaded (m.GetTexture0 t) = none) :
    (loadMaterialTexture c w m t s).1 = s.heap.length ∧
      (loadMaterialTexture c w m t s).2.heap = s.heap ++ [⟨s.glNext, m.GetTexture0 t⟩] ∧
      (loadMaterialTexture c w m t s).2.texturesLoaded =
        s.texturesLoaded ++ [(m.GetTexture0 t, s.heap.length)] ∧
      (loadMaterialTexture c w m t s).2.glNext = s.glNext + 1 ∧
      loaderCalls (loadMaterialTexture c w m t s).2.trace = loaderCalls s.trace + 1 ∧
      (loadMaterialTexture c w m t s).2.materialOverride = s.materialOverride ∧
      (loadMaterialTexture c w m t s).2.directory = s.directory ∧
      (loadMaterialTexture c w m t s).2.meshes = s.meshes := by
  cases hd : w.stbi_load (s.directory ++ "/" ++ m.GetTexture0 t) with
  | none =>
    rw [loadMaterialTexture_miss_undecoded c w m t s h hd]
    simp [loaderCalls, List.filter_append]
  | some img =>
    rw [loadMaterialTexture_miss_decoded c w m t s img h hd]
    simp [loaderCalls, List.filter_append]

/-- After any call, the cache maps the requested path to the returned Texture. -/
theorem loadMaterialTexture_cached (c : Constants) (w : World) (m : aiMaterial)
    (t : aiTextureType) (s : ModelState) :
    mapFind (loadMaterialTexture c w m t s).2.texturesLoaded (m.GetTexture0 t) =
      some (loadMaterialTexture c w m t s).1 := by
  cases h : mapFind s.texturesLoaded (m.GetTexture0 t) with
  | some p => rw [loadMaterialTexture_hit c w m t s p h]; exact h
  | none =>
    obtain ⟨h1, _, h3, _⟩ := loadMaterialTexture_miss c w m t s h
    rw [h1, h3]
    exact lookup_append_new _ _ _ h

/-- The cache is append-only: a call never changes what a key already maps to. -/
theorem loadMaterialTexture_keeps (c : Constants) (w : World) (m : aiMaterial)
    (t : aiTextureType) (s : ModelState) (k : String) (p : TexturePtr)
    (hk : mapFind s.texturesLoaded k = some p) :
    mapFind (loadMaterialTexture c w m t s).2.texturesLoaded k = some p := by
  cases h : mapFind s.texturesLoaded (m.GetTexture0 t) with
  | some q => rw [loadMaterialTexture_hit c w m t s q h]; exact hk
  | none =>
    obtain ⟨_, _, h3, _⟩ := loadMaterialTexture_miss c w m t s h
    rw [h3]
    exact lookup_append_old _ _ _ _ _ hk

/-- A call never touches the override, the directory or the mesh list. -/
theorem loadMaterialTexture_frame (c : Constants) (w : World) (m : aiMaterial)
    (t : aiTextureType) (s : ModelState) :
    (loadMaterialTexture c w m t s).2.materialOverride = s.materialOverride ∧
      (loadMaterialTexture c w m t s).2.directory = s.directory ∧
      (loadMaterialTexture c w m t s).2.meshes = s.meshes := by
  cases h : mapFind s.texturesLoaded (m.GetTexture0 t) with
  | some q => rw [loadMaterialTexture_hit c w m t s q h]; simp
  | none =>
    obtain ⟨_, _, _, _, _, h6, h7, h8⟩ := loadMaterialTexture_miss c w m t s h
    exact ⟨h6, h7, h8⟩


/-! ## Texture cache and texture loader: the claims -/

/-- C1 (cache idempotence). Two consecutive calls of `loadMaterialTexture` for the
same material and texture type return the same Texture pointer, the second call
leaves the whole state (cache, heap, trace) as the first left it, and the
pointer dereferences to the same Texture. If the path was a key, the first call
returns the stored pointer and no `stbi_load` call is made; if it was not, the
returned Texture carries the generated GL name and the path, and exactly one
`stbi_load` call (one loader invocation) is made across the two calls. -/
theorem cache_idempotence (c : Constants) (w : World) (m : aiMaterial)
    (t : aiTextureType) (s : ModelState) :
    let first := loadMaterialTexture c w m t s
    let second := loadMaterialTexture c w m t first.2
    second.1 = first.1 ∧ second.2 = first.2 ∧
      second.2.heap[second.1]? = first.2.heap[first.1]? ∧
      match mapFind s.texturesLoaded (m.GetTexture0 t) with
      | some p => first = (p, s) ∧ loaderCalls second.2.trace = loaderCalls s.trace
      | none =>
        first.2.heap[first.1]? = some ⟨s.glNext, m.GetTexture0 t⟩ ∧
          loaderCalls first.2.trace = loaderCalls s.trace + 1 ∧
          loaderCalls second.2.trace = loaderCalls s.trace + 1 := by
  intro first second
  have hsec : second = first := by
    show loadMaterialTexture c w m t first.2 = first
    rw [loadMaterialTexture_hit c w m t first.2 first.1 (loadMaterialTexture_cached c w m t s)]
  refine ⟨by rw [hsec], by rw [hsec], by rw [hsec], ?_⟩
  cases h : mapFind s.texturesLoaded (m.GetTexture0 t) with
  | some p =>
    have hf : first = (p, s) := loadMaterialTexture_hit c w m t s p h
    exact ⟨hf, by rw [hsec, hf]⟩
  | none =>
    obtain ⟨h1, h2, _, _, h5, _⟩ := loadMaterialTexture_miss c w m t s h
    have hf : first.2.heap[first.1]? = some ⟨s.glNext, m.GetTexture0 t⟩ := by
      show (loadMaterialTexture c w m t s).2.heap[(loadMaterialTexture c w m t s).1]? = _
      rw [h1, h2]; simp
    exact ⟨hf, h5, by rw [hsec]; exact h5⟩

/-- C2 (color-space selection). When the image decodes with 1, 3 or 4 channels,
`textureFromFile` issues exactly one `glTexImage2D` whose upload format is
`GL_RED`, `GL_RGB` or `GL_RGBA` respectively and whose internal format is
`GL_SRGB` for `aiTextureType_DIFFUSE` with 3 channels, `GL_SRGB_ALPHA` for
`aiTextureType_DIFFUSE` with 4 channels, and the upload format otherwise. -/
theorem color_space_selection (c : Constants) (w : World) (f d : String)
    (t : aiTextureType) (s : ModelState) (img : Image) (hc : c.UploadDistinct)
    (himg : w.stbi_load (d ++ "/" ++ f) = some img)
    (hn : img.numChannels = 1 ∨ img.numChannels = 3 ∨ img.numChannels = 4) :
    texImageFormats (textureFromFile c w f d t s).2.trace =
      texImageFormats s.trace ++
        [(if t = .DIFFUSE ∧ img.numChannels = 3 then c.GL_SRGB
          else if t = .DIFFUSE ∧ img.numChannels = 4 then c.GL_SRGB_ALPHA
          else if img.numChannels = 1 then c.GL_RED
          else if img.numChannels = 3 then c.GL_RGB
          else c.GL_RGBA,
          if img.numChannels = 1 then c.GL_RED
          else if img.numChannels = 3 then c.GL_RGB
          else c.GL_RGBA)] := by
  obtain ⟨h12, h13, h43⟩ := hc
  rw [textureFromFile_decoded c w f d t s img himg]
  simp only [texImageFormats, List.filterMap_append]
  by_cases ht : t = .DIFFUSE <;> rcases hn with h | h | h <;>
    simp [h, ht, uploadFormat, internalFormatOf, h12, h13, h43]


/-- C2 at the published constants: a 3-channel albedo image is uploaded as
`(GL_SRGB, GL_RGB)`. -/
theorem color_space_selection_witness :
    khronos.UploadDistinct ∧
      demoWorld.stbi_load ("assets" ++ "/" ++ "a.png") = some demoImage ∧
      (demoImage.numChannels = 1 ∨ demoImage.numChannels = 3 ∨ demoImage.numChannels = 4) ∧
      texImageFormats
          (textureFromFile khronos demoWorld "a.png" "assets" .DIFFUSE demoState).2.trace =
        [(0x8C40, 0x1907)] :=
  ⟨by decide, by decide, by decide,
    color_space_selection khronos demoWorld "a.png" "assets" .DIFFUSE demoState demoImage
      (by decide) (by decide) (by decide)⟩

/-- C7 (failed loads), evaluated. In an empty cache, whatever the never-written
locals hold: an image that decodes with 2 channels is loaded without any
failure, one loader invocation generates GL texture 1, `loadMaterialTexture`
returns a Texture carrying that name and the path, and the cache holds the
entry for the path afterwards; a file that does not decode goes the same way,
with the failure printed and nothing else. -/
theorem failed_load_is_cached (stack : List Call → Indeterminate) :
    mapFind demoState.texturesLoaded "b.png" = none ∧
      mapFind demoState.texturesLoaded "missing.png" = none ∧
      demoWorld.stbi_load "assets/b.png" = some demoGrayAlpha ∧
      demoGrayAlpha.numChannels = 2 ∧
      demoWorld.stbi_load "assets/missing.png" = none ∧
      (loadMaterialTexture khronos { demoWorld with stack := stack } demoMaterial .LIGHTMAP
          demoState).1 = 0 ∧
      (loadMaterialTexture khronos { demoWorld with stack := stack } demoMaterial .LIGHTMAP
          demoState).2.texturesLoaded = [("b.png", 0)] ∧
      (loadMaterialTexture khronos { demoWorld with stack := stack } demoMaterial .LIGHTMAP
          demoState).2.heap = [⟨1, "b.png"⟩] ∧
      (loadMaterialTexture khronos { demoWorld with stack := stack } demoMaterial .LIGHTMAP
          demoState).2.glNext = 2 ∧
      loaderCalls (loadMaterialTexture khronos { demoWorld with stack := stack } demoMaterial
          .LIGHTMAP demoState).2.trace = 1 ∧
      (loadMaterialTexture khronos { demoWorld with stack := stack } demoMaterial .LIGHTMAP
          demoState).2.cout = ["Process material: b.png"] ∧
      (loadMaterialTexture khronos { demoWorld with stack := stack } demoMaterial .EMISSIVE
          demoState).1 = 0 ∧
      (loadMaterialTexture khronos { demoWorld with stack := stack } demoMaterial .EMISSIVE
          demoState).2.texturesLoaded = [("missing.png", 0)] ∧
      (loadMaterialTexture khronos { demoWorld with stack := stack } demoMaterial .EMISSIVE
          demoState).2.heap = [⟨1, "missing.png"⟩] ∧
      (loadMaterialTexture khronos { demoWorld with stack := stack } demoMaterial .EMISSIVE
          demoState).2.glNext = 2 ∧
      loaderCalls (loadMaterialTexture khronos { demoWorld with stack := stack } demoMaterial
          .EMISSIVE demoState).2.trace = 1 ∧
      (loadMaterialTexture khronos { demoWorld with stack := stack } demoMaterial .EMISSIVE
          demoState).2.cout =
        ["Process material: missing.png", "Failed to load texture data"] := by
  have hb : mapFind demoState.texturesLoaded (demoMaterial.GetTexture0 .LIGHTMAP) = none := by
    decide
  have hm : mapFind demoState.texturesLoaded (demoMaterial.GetTexture0 .EMISSIVE) = none := by
    decide
  have hdb : demoWorld.stbi_load
      (demoState.directory ++ "/" ++ demoMaterial.GetTexture0 .LIGHTMAP) = some demoGrayAlpha := by
    decide
  have hdm : demoWorld.stbi_load
      (demoState.directory ++ "/" ++ demoMaterial.GetTexture0 .EMISSIVE) = none := by
    decide
  rw [loadMaterialTexture_miss_decoded khronos { demoWorld with stack := stack } demoMaterial
      .LIGHTMAP demoState demoGrayAlpha hb hdb,
    loadMaterialTexture_miss_undecoded khronos { demoWorld with stack := stack } demoMaterial
      .EMISSIVE demoState hm hdm]
  refine ⟨by decide, by decide, by decide, by decide, by decide, rfl, rfl, rfl, rfl, ?_, rfl,
    rfl, rfl, rfl, rfl, ?_, rfl⟩ <;>
  simp [loaderCalls, demoState]

/-- C10 (a cache hit ignores the role). The cache is keyed by the path alone:
when the path is a key, `loadMaterialTexture` returns the stored Texture for
every texture type and leaves the state as it was; a second request for the
same path under any other type returns what the first request returned and
changes nothing; so after both requests the only upload made for the path has
the internal format of the first type, whatever the second type is. -/
theorem cache_hit_ignores_role (c : Constants) (w : World)
    (m1 m2 : aiMaterial) (t1 t2 : aiTextureType) (s : ModelState)
    (hpath : m2.GetTexture0 t2 = m1.GetTexture0 t1) :
    (∀ p, mapFind s.texturesLoaded (m1.GetTexture0 t1) = some p →
        loadMaterialTexture c w m2 t2 s = (p, s)) ∧
      loadMaterialTexture c w m2 t2 (loadMaterialTexture c w m1 t1 s).2 =
        loadMaterialTexture c w m1 t1 s ∧
      (∀ img, mapFind s.texturesLoaded (m1.GetTexture0 t1) = none →
        w.stbi_load (s.directory ++ "/" ++ m1.GetTexture0 t1) = some img →
        texImageFormats
            (loadMaterialTexture c w m2 t2 (loadMaterialTexture c w m1 t1 s).2).2.trace =
          texImageFormats s.trace ++
            [(internalFormatOf c t1 (uploadFormat c (w.stack s.trace) img.numChannels),
              uploadFormat c (w.stack s.trace) img.numChannels)]) := by
  have hsec : loadMaterialTexture c w m2 t2 (loadMaterialTexture c w m1 t1 s).2 =
      loadMaterialTexture c w m1 t1 s := by
    rw [loadMaterialTexture_hit c w m2 t2 _ (loadMaterialTexture c w m1 t1 s).1
      (by rw [hpath]; exact loadMaterialTexture_cached c w m1 t1 s)]
  refine ⟨?_, hsec, ?_⟩
  · intro p hp
    exact loadMaterialTexture_hit c w m2 t2 s p (by rw [hpath]; exact hp)
  · intro img hmiss hd
    rw [hsec, loadMaterialTexture_miss_decoded c w m1 t1 s img hmiss hd]
    simp [texImageFormats, List.filterMap_append]

/-- C10 on a 3-channel image loaded as a normal map and then requested as
albedo: the one upload is `(GL_RGB, GL_RGB)`, not sRGB. -/
theorem cache_hit_ignores_role_witness :
    demoMaterial.GetTexture0 .DIFFUSE = demoMaterial.GetTexture0 .NORMALS ∧
      mapFind demoState.texturesLoaded (demoMaterial.GetTexture0 .NORMALS) = none ∧
      demoWorld.stbi_load (demoState.directory ++ "/" ++ demoMaterial.GetTexture0 .NORMALS) =
        some demoImage ∧
      texImageFormats
          (loadMaterialTexture khronos demoWorld demoMaterial .DIFFUSE
            (loadMaterialTexture khronos demoWorld demoMaterial .NORMALS demoState).2).2.trace =
        texImageFormats demoState.trace ++ [(khronos.GL_RGB, khronos.GL_RGB)] :=
  ⟨by decide, by decide, by decide,
    (cache_hit_ignores_role khronos demoWorld demoMaterial demoMaterial
      .NORMALS .DIFFUSE demoState (by decide)).2.2 demoImage (by decide) (by decide)⟩


/-! ## Lemmas: mesh builder -/

theorem readAt_of_lt {α : Type} (xs : List α) (i : Nat) (h : i < xs.length) :
    readAt xs i = .ok xs[i] := by
  simp [readAt, List.getElem?_eq_getElem h]

theorem processVertex_ok (mesh : aiMesh) (hwf : mesh.WellFormed) (i : Nat)
    (hi : i < mesh.mNumVertices) : ∃ v, processVertex mesh i = .ok v := by
  obtain ⟨hv, hn, ht, hb, huv⟩ := hwf
  have h0 : 0 < mesh.mNumVertices := Nat.lt_of_le_of_lt (Nat.zero_le i) hi
  cases hc : mesh.mTextureCoords0 with
  | none =>
    simp [processVertex, hc, bind, Except.bind, pure, Except.pure,
      readAt_of_lt mesh.mVertices i (hv ▸ hi), readAt_of_lt mesh.mNormals i (hn ▸ hi),
      readAt_of_lt mesh.mTangents 0 (ht ▸ h0), readAt_of_lt mesh.mBitangents 0 (hb ▸ h0)]
  | some uv =>
    have hu : uv.length = mesh.mNumVertices := huv uv (by simp [hc])
    simp [processVertex, hc, bind, Except.bind, pure, Except.pure,
      readAt_of_lt mesh.mVertices i (hv ▸ hi), readAt_of_lt mesh.mNormals i (hn ▸ hi),
      readAt_of_lt uv i (hu ▸ hi),
      readAt_of_lt mesh.mTangents 0 (ht ▸ h0), readAt_of_lt mesh.mBitangents 0 (hb ▸ h0)]

theorem vertexLoop_ok (mesh : aiMesh) :
    ∀ (remaining i : Nat) (vertices : List Vertex),
      (∀ j, i ≤ j → j < i + remaining → ∃ v, processVertex mesh j = .ok v) →
      ∃ built, vertexLoop mesh remaining i vertices = .ok (vertices ++ built) ∧
        built.length = remaining
  | 0, _, vertices, _ => ⟨[], by simp [vertexLoop], rfl⟩
  | remaining + 1, i, vertices, h => by
    obtain ⟨v, hv⟩ := h i (Nat.le_refl i) (by omega)
    obtain ⟨built, hb, hlen⟩ := vertexLoop_ok mesh remaining (i + 1) (vertices ++ [v])
      (fun j h1 h2 => h j (by omega) (by omega))
    exact ⟨v :: built, by simp [vertexLoop, hv, hb], by simp [hlen]⟩

theorem vertexLoop_wellFormed (mesh : aiMesh) (hwf : mesh.WellFormed) :
    ∃ vertices, vertexLoop mesh mesh.mNumVertices 0 [] = .ok vertices ∧
      vertices.length = mesh.mNumVertices := by
  obtain ⟨built, hb, hlen⟩ := vertexLoop_ok mesh mesh.mNumVertices 0 []
    (fun j _ h2 => processVertex_ok mesh hwf j (by omega))
  exact ⟨built, by simpa using hb, hlen⟩

theorem pushAll (indices js : List Nat) :
    js.foldl (fun indices j => indices ++ [j]) indices = indices ++ js := by
  induction js generalizing indices with
  | nil => simp
  | cons j js ih => simp [ih]

theorem indexLoop_from (faces : List aiFace) (indices : List Nat) :
    faces.foldl
        (fun indices face => face.mIndices.foldl (fun indices j => indices ++ [j]) indices)
        indices =
      indices ++ (faces.map (·.mIndices)).flatten := by
  induction faces generalizing indices with
  | nil => simp
  | cons f fs ih =>
    simp only [pushAll] at ih
    simp only [List.foldl_cons, pushAll, List.map_cons, List.flatten_cons]
    rw [ih, List.append_assoc]

theorem indexLoop_eq_flatten (mesh : aiMesh) :
    indexLoop mesh = (mesh.mFaces.map (·.mIndices)).flatten := by
  simp [indexLoop, indexLoop_from]

theorem flatten_triangles_length (faces : List aiFace)
    (h : ∀ f ∈ faces, f.mIndices.length = 3) :
    (faces.map (·.mIndices)).flatten.length = 3 * faces.length := by
  induction faces with
  | nil => simp
  | cons f fs ih =>
    have hf : f.mIndices.length = 3 := h f (by simp)
    have := ih (fun g hg => h g (by simp [hg]))
    simp only [List.map_cons, List.flatten_cons, List.length_append, List.length_cons, hf, this]
    omega

theorem flatten_triangles_get (faces : List aiFace)
    (h : ∀ f ∈ faces, f.mIndices.length = 3) :
    ∀ (k j : Nat), j < 3 →
      (faces.map (·.mIndices)).flatten[3 * k + j]? = (faces[k]?).bind (fun f => f.mIndices[j]?) := by
  induction faces with
  | nil => intro k j _; simp
  | cons f fs ih =>
    intro k j hj
    have hf : f.mIndices.length = 3 := h f (by simp)
    cases k with
    | zero =>
      simp only [List.map_cons, List.flatten_cons, Nat.mul_zero, Nat.zero_add]
      rw [List.getElem?_append_left (by omega)]
      simp
    | succ k =>
      simp only [List.map_cons, List.flatten_cons]
      rw [List.getElem?_append_right (by omega)]
      have hidx : 3 * (k + 1) + j - f.mIndices.length = 3 * k + j := by omega
      rw [hidx, ih (fun g hg => h g (by simp [hg])) k j hj]
      simp

/-- With an override the result is the geometry, the override and the state as
it was; the scene and the material index do not occur on the right. -/
theorem processMesh_of_override (c : Constants) (w : World) (mesh : aiMesh)
    (scene : aiScene) (s : ModelState) (m : Material) (hov : s.materialOverride = some m) :
    processMesh c w mesh scene s =
      match vertexLoop mesh mesh.mNumVertices 0 [] with
      | .error e => .error e
      | .ok vertices => .ok ({ vertices, indices := indexLoop mesh, material := m }, s) := by
  simp only [processMesh, hov]

/-- Without an override and with a valid material index the material is the
resolution of the scene material, started from a default `Material`. -/
theorem processMesh_of_material (c : Constants) (w : World) (mesh : aiMesh)
    (scene : aiScene) (s : ModelState) (aiMat : aiMaterial)
    (hov : s.materialOverride = none)
    (hmat : scene.mMaterials[mesh.mMaterialIndex]? = some aiMat) :
    processMesh c w mesh scene s =
      match vertexLoop mesh mesh.mNumVertices 0 [] with
      | .error e => .error e
      | .ok vertices =>
        .ok ({ vertices, indices := indexLoop mesh,
               material := (resolveTextures c w aiMat {} s).1 },
             (resolveTextures c w aiMat {} s).2) := by
  simp only [processMesh, hov, readAt, hmat]

/-- Without an override and with a material index outside the scene's material
array, the read of `scene->mMaterials[...]` is a fault. -/
theorem processMesh_of_missing_material (c : Constants) (w : World) (mesh : aiMesh)
    (scene : aiScene) (s : ModelState) (hov : s.materialOverride = none)
    (hmat : scene.mMaterials[mesh.mMaterialIndex]? = none) :
    processMesh c w mesh scene s =
      match vertexLoop mesh mesh.mNumVertices 0 [] with
      | .error e => .error e
      | .ok _ => .error .invalidRead := by
  simp only [processMesh, hov, readAt, hmat]

theorem processMesh_ok (c : Constants) (w : World) (mesh : aiMesh) (scene : aiScene)
    (s : ModelState) (hwf : mesh.WellFormed)
    (hm : s.materialOverride.isSome = true ∨ mesh.mMaterialIndex < scene.mMaterials.length) :
    ∃ r, processMesh c w mesh scene s = .ok r := by
  obtain ⟨vertices, hv, _⟩ := vertexLoop_wellFormed mesh hwf
  cases hov : s.materialOverride with
  | some m => rw [processMesh_of_override c w mesh scene s m hov, hv]; exact ⟨_, rfl⟩
  | none =>
    have hlt : mesh.mMaterialIndex < scene.mMaterials.length := by
      rcases hm with h | h
      · simp [hov] at h
      · exact h
    rw [processMesh_of_material c w mesh scene s _ hov (List.getElem?_eq_getElem hlt), hv]
    exact ⟨_, rfl⟩

theorem processMesh_indices_eq (c : Constants) (w : World) (mesh : aiMesh) (scene : aiScene)
    (s : ModelState) (r : Mesh × ModelState) (h : processMesh c w mesh scene s = .ok r) :
    r.1.indices = indexLoop mesh := by
  unfold processMesh at h
  cases hv : vertexLoop mesh mesh.mNumVertices 0 [] with
  | error e => simp [hv] at h
  | ok vertices =>
    cases hov : s.materialOverride with
    | some m => simp [hv, hov] at h; rw [← h]
    | none =>
      cases hr : readAt scene.mMaterials mesh.mMaterialIndex with
      | error e => simp [hv, hov, hr] at h
      | ok aiMat => simp [hv, hov, hr] at h; rw [← h]

theorem vertexLoop_materialIndex (mesh : aiMesh) (index : Nat) :
    ∀ (remaining i : Nat) (vertices : List Vertex),
      vertexLoop { mesh with mMaterialIndex := index } remaining i vertices =
        vertexLoop mesh remaining i vertices
  | 0, _, _ => rfl
  | remaining + 1, i, vertices => by
    have hv : processVertex { mesh with mMaterialIndex := index } i = processVertex mesh i := rfl
    simp only [vertexLoop, hv]
    cases processVertex mesh i with
    | error e => rfl
    | ok v => exact vertexLoop_materialIndex mesh index remaining (i + 1) (vertices ++ [v])

/-- C4, refuted on the code as stated. With a material override set, the build of
a mesh that has no UV channel and therefore no tangent and bitangent arrays does
not succeed: the vertex loop reads `mTangents[0]` of an absent array. -/
theorem override_build_faults_without_tangents :
    demoOverrideState.materialOverride = some demoOverride ∧
      demoBareMesh.mNumVertices = 2 ∧ demoBareMesh.mVertices.length = 2 ∧
      demoBareMesh.mNormals.length = 2 ∧ demoBareMesh.mTextureCoords0 = none ∧
      demoBareMesh.mTangents = [] ∧ demoBareMesh.mBitangents = [] ∧
      processMesh khronos demoWorld demoBareMesh demoScene demoOverrideState =
        .error .invalidRead :=
  ⟨rfl, rfl, rfl, rfl, rfl, rfl, rfl, rfl⟩

/-- C4 (override bypass) with its precondition. With a material override set and a
mesh whose vertex attribute arrays hold `mNumVertices` entries, `processMesh`
succeeds for every scene: it returns `mNumVertices` vertices, the extracted
indices and the override as material, and leaves the whole state as it was
(texture cache, heap, GL trace: the loader is not invoked). The outcome is the
same for every scene and every material index, valid or not, so neither is
read. -/
theorem override_bypass (c : Constants) (w : World) (mesh : aiMesh)
    (scene : aiScene) (s : ModelState) (m : Material) (hov : s.materialOverride = some m)
    (hwf : mesh.WellFormed) :
    (∃ vertices, vertices.length = mesh.mNumVertices ∧
        processMesh c w mesh scene s =
          .ok ({ vertices, indices := indexLoop mesh, material := m }, s)) ∧
      (∀ r, processMesh c w mesh scene s = .ok r →
        r.1.material = m ∧ r.2 = s ∧ r.2.texturesLoaded = s.texturesLoaded ∧
          loaderCalls r.2.trace = loaderCalls s.trace) ∧
      (∀ (scene' : aiScene) (index : Nat),
        processMesh c w { mesh with mMaterialIndex := index } scene' s =
          processMesh c w mesh scene s) := by
  obtain ⟨vertices, hv, hlen⟩ := vertexLoop_wellFormed mesh hwf
  have hp : processMesh c w mesh scene s =
      .ok ({ vertices, indices := indexLoop mesh, material := m }, s) := by
    rw [processMesh_of_override c w mesh scene s m hov, hv]
  refine ⟨⟨vertices, hlen, hp⟩, ?_, ?_⟩
  · intro r hr
    rw [hp] at hr
    cases hr
    exact ⟨rfl, rfl, rfl, rfl⟩
  · intro scene' index
    rw [processMesh_of_override c w mesh scene s m hov,
      processMesh_of_override c w _ scene' s m hov]
    have hv' := vertexLoop_materialIndex mesh index mesh.mNumVertices 0 []
    have hi : indexLoop { mesh with mMaterialIndex := index } = indexLoop mesh := rfl
    simp only [hv', hi]

/-- C4 on a well-formed mesh whose material index is outside the scene's material
list. -/
theorem override_bypass_witness :
    demoOverrideState.materialOverride = some demoOverride ∧ demoOrphanMesh.WellFormed ∧
      ¬ demoOrphanMesh.mMaterialIndex < demoScene.mMaterials.length ∧
      ∃ vertices, vertices.length = demoOrphanMesh.mNumVertices ∧
        processMesh khronos demoWorld demoOrphanMesh demoScene demoOverrideState =
          .ok ({ vertices, indices := indexLoop demoOrphanMesh, material := demoOverride },
            demoOverrideState) :=
  ⟨rfl, by decide, by decide,
    (override_bypass khronos demoWorld demoOrphanMesh demoScene demoOverrideState
      demoOverride rfl (by decide)).1⟩

/-- C6 (tangent and bitangent extraction), evaluated on a mesh with two vertices
whose tangents and bitangents differ: both built vertices carry entry 0 of the
imported tangent and bitangent arrays, while entry 1 of each array is another
vector. -/
theorem tangent_broadcast_defect :
    (processMesh khronos demoWorld demoMesh demoScene demoOverrideState).toOption.map
        (fun r => r.1.vertices.map (fun v => (v.tangent, v.bitangent))) =
      some [(⟨17, 18, 19⟩, ⟨23, 24, 25⟩), (⟨17, 18, 19⟩, ⟨23, 24, 25⟩)] ∧
      demoMesh.mNumVertices = 2 ∧
      demoMesh.mTangents = [⟨17, 18, 19⟩, ⟨20, 21, 22⟩] ∧
      demoMesh.mBitangents = [⟨23, 24, 25⟩, ⟨26, 27, 28⟩] := by
  decide

/-- C9 (index extraction). The index loop of `processMesh` yields the
concatenation of the faces' index lists, in face order; every mesh that
`processMesh` returns carries that sequence; the build returns on a well-formed
mesh whose material can be read; and when every face has three indices the
sequence has length `3 * numFaces` with entries `3k`, `3k+1`, `3k+2` the indices
of face `k`. -/
theorem index_extraction (c : Constants) (w : World) (mesh : aiMesh)
    (scene : aiScene) (s : ModelState) :
    indexLoop mesh = (mesh.mFaces.map (·.mIndices)).flatten ∧
      (∀ r, processMesh c w mesh scene s = .ok r →
        r.1.indices = (mesh.mFaces.map (·.mIndices)).flatten) ∧
      (mesh.WellFormed →
        (s.materialOverride.isSome = true ∨ mesh.mMaterialIndex < scene.mMaterials.length) →
        ∃ r, processMesh c w mesh scene s = .ok r) ∧
      ((∀ f ∈ mesh.mFaces, f.mIndices.length = 3) →
        (indexLoop mesh).length = 3 * mesh.mFaces.length ∧
          ∀ k j, j < 3 →
            (indexLoop mesh)[3 * k + j]? = (mesh.mFaces[k]?).bind (fun f => f.mIndices[j]?)) := by
  refine ⟨indexLoop_eq_flatten mesh, ?_, processMesh_ok c w mesh scene s, ?_⟩
  · intro r hr
    rw [processMesh_indices_eq c w mesh scene s r hr, indexLoop_eq_flatten]
  · intro h3
    rw [indexLoop_eq_flatten]
    exact ⟨flatten_triangles_length mesh.mFaces h3, flatten_triangles_get mesh.mFaces h3⟩

/-- C9 on a mesh with two triangles. -/
theorem index_extraction_witness :
    demoMesh.WellFormed ∧ demoMesh.mMaterialIndex < demoScene.mMaterials.length ∧
      (∀ f ∈ demoMesh.mFaces, f.mIndices.length = 3) ∧
      (∃ r, processMesh khronos demoWorld demoMesh demoScene demoState = .ok r) ∧
      (indexLoop demoMesh).length = 3 * demoMesh.mFaces.length ∧
      (indexLoop demoMesh)[3 * 1 + 2]? = (demoMesh.mFaces[1]?).bind (fun f => f.mIndices[2]?) :=
  ⟨by decide, by decide, by decide,
    (index_extraction khronos demoWorld demoMesh demoScene demoState).2.2.1
      (by decide) (Or.inr (by decide)),
    ((index_extraction khronos demoWorld demoMesh demoScene demoState).2.2.2
      (by decide)).1,
    ((index_extraction khronos demoWorld demoMesh demoScene demoState).2.2.2
      (by decide)).2 1 2 (by decide)⟩

/-! ## Lemmas: material resolution -/

theorem head?_of_count (aiMat : aiMaterial) (t : aiTextureType)
    (h : 0 < aiMat.GetTextureCount t) :
    (aiMat.textures t).head? = some (aiMat.GetTexture0 t) := by
  unfold aiMaterial.GetTextureCount at h
  unfold aiMaterial.GetTexture0
  cases hl : aiMat.textures t with
  | nil => simp [hl] at h
  | cons a l => simp

/-- The five blocks of `resolveTextures` are five `resolveRole` steps. -/
theorem resolveTextures_eq_roles (c : Constants) (w : World) (aiMat : aiMaterial)
    (material : Material) (s : ModelState) :
    resolveTextures c w aiMat material s =
      resolveRole c w aiMat .EMISSIVE
        (fun m p => { m with useTextureEmissive := true, textureEmissive := some p })
        (resolveRole c w aiMat .LIGHTMAP
          (fun m p =>
            { m with useTextureAmbientOcclusion := true, textureAmbientOcclusion := some p })
          (resolveRole c w aiMat .NORMALS
            (fun m p => { m with useTextureNormal := true, textureNormal := some p })
            (resolveRole c w aiMat .UNKNOWN
              (fun m p =>
                { m with useTextureMetallicRoughness := true,
                         textureMetallicRoughness := some p })
              (resolveRole c w aiMat .DIFFUSE
                (fun m p => { m with useTextureAlbedo := true, textureAlbedo := some p })
                (material, s))))) := rfl

/-- The block of a role establishes the role. -/
theorem resolveRole_establishes (c : Constants) (w : World) (aiMat : aiMaterial)
    (type : aiTextureType) (set : Material → TexturePtr → Material)
    (flag : Material → Bool) (slot : Material → Option TexturePtr)
    (acc : Material × ModelState)
    (hset : ∀ m p, flag (set m p) = true ∧ slot (set m p) = some p)
    (hdef : flag acc.1 = false ∧ slot acc.1 = none) :
    RoleResolved aiMat type (flag (resolveRole c w aiMat type set acc).1)
      (slot (resolveRole c w aiMat type set acc).1) (resolveRole c w aiMat type set acc).2 := by
  unfold resolveRole
  by_cases h : aiMat.GetTextureCount type = 0
  · simp [RoleResolved, h, hdef.1, hdef.2]
  · have hpos : 0 < aiMat.GetTextureCount type := Nat.pos_of_ne_zero h
    simp only [ne_eq, h, not_false_eq_true, if_true]
    refine ⟨by simp [(hset _ _).1, hpos], fun h0 => absurd h0 h, fun _ => ?_⟩
    exact ⟨_, _, head?_of_count aiMat type hpos, (hset _ _).2,
      loadMaterialTexture_cached c w aiMat type acc.2⟩

/-- The block of another role keeps a role that is established. -/
theorem resolveRole_keeps (c : Constants) (w : World) (aiMat : aiMaterial)
    (type other : aiTextureType) (set : Material → TexturePtr → Material)
    (flag : Material → Bool) (slot : Material → Option TexturePtr)
    (acc : Material × ModelState)
    (hset : ∀ m p, flag (set m p) = flag m ∧ slot (set m p) = slot m)
    (h : RoleResolved aiMat other (flag acc.1) (slot acc.1) acc.2) :
    RoleResolved aiMat other (flag (resolveRole c w aiMat type set acc).1)
      (slot (resolveRole c w aiMat type set acc).1) (resolveRole c w aiMat type set acc).2 := by
  unfold resolveRole
  by_cases hc : aiMat.GetTextureCount type = 0
  · simpa [hc] using h
  · simp only [ne_eq, hc, not_false_eq_true, if_true, (hset _ _).1, (hset _ _).2]
    obtain ⟨h1, h2, h3⟩ := h
    refine ⟨h1, h2, fun hpos => ?_⟩
    obtain ⟨path, p, hp, hs, hm⟩ := h3 hpos
    exact ⟨path, p, hp, hs, loadMaterialTexture_keeps c w aiMat type acc.2 path p hm⟩

/-- The block of another role leaves an untouched role untouched. -/
theorem resolveRole_untouched (c : Constants) (w : World) (aiMat : aiMaterial)
    (type : aiTextureType) (set : Material → TexturePtr → Material)
    (flag : Material → Bool) (slot : Material → Option TexturePtr)
    (acc : Material × ModelState)
    (hset : ∀ m p, flag (set m p) = flag m ∧ slot (set m p) = slot m)
    (h : flag acc.1 = false ∧ slot acc.1 = none) :
    flag (resolveRole c w aiMat type set acc).1 = false ∧
      slot (resolveRole c w aiMat type set acc).1 = none := by
  unfold resolveRole
  by_cases hc : aiMat.GetTextureCount type = 0
  · simpa [hc] using h
  · simpa only [ne_eq, hc, not_false_eq_true, if_true, (hset _ _).1, (hset _ _).2] using h

/-- One role after another: the flags and slots of the resolved material, with
the cache entries of the final state. -/
theorem resolveTextures_resolved (c : Constants) (w : World) (aiMat : aiMaterial)
    (s : ModelState) :
    RoleResolved aiMat .DIFFUSE (resolveTextures c w aiMat {} s).1.useTextureAlbedo
        (resolveTextures c w aiMat {} s).1.textureAlbedo (resolveTextures c w aiMat {} s).2 ∧
      RoleResolved aiMat .UNKNOWN
        (resolveTextures c w aiMat {} s).1.useTextureMetallicRoughness
        (resolveTextures c w aiMat {} s).1.textureMetallicRoughness
        (resolveTextures c w aiMat {} s).2 ∧
      RoleResolved aiMat .NORMALS (resolveTextures c w aiMat {} s).1.useTextureNormal
        (resolveTextures c w aiMat {} s).1.textureNormal (resolveTextures c w aiMat {} s).2 ∧
      RoleResolved aiMat .LIGHTMAP
        (resolveTextures c w aiMat {} s).1.useTextureAmbientOcclusion
        (resolveTextures c w aiMat {} s).1.textureAmbientOcclusion
        (resolveTextures c w aiMat {} s).2 ∧
      RoleResolved aiMat .EMISSIVE (resolveTextures c w aiMat {} s).1.useTextureEmissive
        (resolveTextures c w aiMat {} s).1.textureEmissive
        (resolveTextures c w aiMat {} s).2 := by
  rw [resolveTextures_eq_roles]
  refine ⟨?_, ?_, ?_, ?_, ?_⟩
  · refine resolveRole_keeps c w aiMat _ _ _ (·.useTextureAlbedo) (·.textureAlbedo) _
      (fun _ _ => ⟨rfl, rfl⟩) ?_
    refine resolveRole_keeps c w aiMat _ _ _ (·.useTextureAlbedo) (·.textureAlbedo) _
      (fun _ _ => ⟨rfl, rfl⟩) ?_
    refine resolveRole_keeps c w aiMat _ _ _ (·.useTextureAlbedo) (·.textureAlbedo) _
      (fun _ _ => ⟨rfl, rfl⟩) ?_
    refine resolveRole_keeps c w aiMat _ _ _ (·.useTextureAlbedo) (·.textureAlbedo) _
      (fun _ _ => ⟨rfl, rfl⟩) ?_
    exact resolveRole_establishes c w aiMat _ _ (·.useTextureAlbedo) (·.textureAlbedo) _
      (fun _ _ => ⟨rfl, rfl⟩) ⟨rfl, rfl⟩
  · refine resolveRole_keeps c w aiMat _ _ _ (·.useTextureMetallicRoughness)
      (·.textureMetallicRoughness) _ (fun _ _ => ⟨rfl, rfl⟩) ?_
    refine resolveRole_keeps c w aiMat _ _ _ (·.useTextureMetallicRoughness)
      (·.textureMetallicRoughness) _ (fun _ _ => ⟨rfl, rfl⟩) ?_
    refine resolveRole_keeps c w aiMat _ _ _ (·.useTextureMetallicRoughness)
      (·.textureMetallicRoughness) _ (fun _ _ => ⟨rfl, rfl⟩) ?_
    refine resolveRole_establishes c w aiMat _ _ (·.useTextureMetallicRoughness)
      (·.textureMetallicRoughness) _ (fun _ _ => ⟨rfl, rfl⟩) ?_
    exact resolveRole_untouched c w aiMat _ _ (·.useTextureMetallicRoughness)
      (·.textureMetallicRoughness) _ (fun _ _ => ⟨rfl, rfl⟩) ⟨rfl, rfl⟩
  · refine resolveRole_keeps c w aiMat _ _ _ (·.useTextureNormal) (·.textureNormal) _
      (fun _ _ => ⟨rfl, rfl⟩) ?_
    refine resolveRole_keeps c w aiMat _ _ _ (·.useTextureNormal) (·.textureNormal) _
      (fun _ _ => ⟨rfl, rfl⟩) ?_
    refine resolveRole_establishes c w aiMat _ _ (·.useTextureNormal) (·.textureNormal) _
      (fun _ _ => ⟨rfl, rfl⟩) ?_
    refine resolveRole_untouched c w aiMat _ _ (·.useTextureNormal) (·.textureNormal) _
      (fun _ _ => ⟨rfl, rfl⟩) ?_
    exact resolveRole_untouched c w aiMat _ _ (·.useTextureNormal) (·.textureNormal) _
      (fun _ _ => ⟨rfl, rfl⟩) ⟨rfl, rfl⟩
  · refine resolveRole_keeps c w aiMat _ _ _ (·.useTextureAmbientOcclusion)
      (·.textureAmbientOcclusion) _ (fun _ _ => ⟨rfl, rfl⟩) ?_
    refine resolveRole_establishes c w aiMat _ _ (·.useTextureAmbientOcclusion)
      (·.textureAmbientOcclusion) _ (fun _ _ => ⟨rfl, rfl⟩) ?_
    refine resolveRole_untouched c w aiMat _ _ (·.useTextureAmbientOcclusion)
      (·.textureAmbientOcclusion) _ (fun _ _ => ⟨rfl, rfl⟩) ?_
    refine resolveRole_untouched c w aiMat _ _ (·.useTextureAmbientOcclusion)
      (·.textureAmbientOcclusion) _ (fun _ _ => ⟨rfl, rfl⟩) ?_
    exact resolveRole_untouched c w aiMat _ _ (·.useTextureAmbientOcclusion)
      (·.textureAmbientOcclusion) _ (fun _ _ => ⟨rfl, rfl⟩) ⟨rfl, rfl⟩
  · refine resolveRole_establishes c w aiMat _ _ (·.useTextureEmissive) (·.textureEmissive) _
      (fun _ _ => ⟨rfl, rfl⟩) ?_
    refine resolveRole_untouched c w aiMat _ _ (·.useTextureEmissive) (·.textureEmissive) _
      (fun _ _ => ⟨rfl, rfl⟩) ?_
    refine resolveRole_untouched c w aiMat _ _ (·.useTextureEmissive) (·.textureEmissive) _
      (fun _ _ => ⟨rfl, rfl⟩) ?_
    refine resolveRole_untouched c w aiMat _ _ (·.useTextureEmissive) (·.textureEmissive) _
      (fun _ _ => ⟨rfl, rfl⟩) ?_
    exact resolveRole_untouched c w aiMat _ _ (·.useTextureEmissive) (·.textureEmissive) _
      (fun _ _ => ⟨rfl, rfl⟩) ⟨rfl, rfl⟩

/-- C5 (per-role resolution). Without an override, for a well-formed mesh whose
material index is valid, `processMesh` returns a mesh whose material has, for
each of the five roles, the flag set exactly when the scene material declares a
texture for the role; when it does, the slot holds the Texture the cache maps
the role's first declared path to; when it does not, the slot is null. -/
theorem per_role_resolution (c : Constants) (w : World) (mesh : aiMesh)
    (scene : aiScene) (s : ModelState) (aiMat : aiMaterial)
    (hov : s.materialOverride = none)
    (hmat : scene.mMaterials[mesh.mMaterialIndex]? = some aiMat)
    (hwf : mesh.WellFormed) :
    ∃ r, processMesh c w mesh scene s = .ok r ∧
      RoleResolved aiMat .DIFFUSE r.1.material.useTextureAlbedo r.1.material.textureAlbedo r.2 ∧
      RoleResolved aiMat .UNKNOWN r.1.material.useTextureMetallicRoughness
        r.1.material.textureMetallicRoughness r.2 ∧
      RoleResolved aiMat .NORMALS r.1.material.useTextureNormal r.1.material.textureNormal r.2 ∧
      RoleResolved aiMat .LIGHTMAP r.1.material.useTextureAmbientOcclusion
        r.1.material.textureAmbientOcclusion r.2 ∧
      RoleResolved aiMat .EMISSIVE r.1.material.useTextureEmissive
        r.1.material.textureEmissive r.2 := by
  obtain ⟨vertices, hv, _⟩ := vertexLoop_wellFormed mesh hwf
  refine ⟨_, by rw [processMesh_of_material c w mesh scene s aiMat hov hmat, hv], ?_⟩
  exact resolveTextures_resolved c w aiMat s

/-- C5 on a material that declares an albedo texture and no metallic-roughness
texture. -/
theorem per_role_resolution_witness :
    demoState.materialOverride = none ∧
      demoScene.mMaterials[demoMesh.mMaterialIndex]? = some demoMaterial ∧
      demoMesh.WellFormed ∧
      ∃ r, processMesh khronos demoWorld demoMesh demoScene demoState = .ok r ∧
        RoleResolved demoMaterial .DIFFUSE r.1.material.useTextureAlbedo
          r.1.material.textureAlbedo r.2 ∧
        RoleResolved demoMaterial .UNKNOWN r.1.material.useTextureMetallicRoughness
          r.1.material.textureMetallicRoughness r.2 :=
  ⟨rfl, rfl, by decide,
    (per_role_resolution khronos demoWorld demoMesh demoScene demoState demoMaterial
      rfl rfl (by decide)).imp (fun _ h => ⟨h.1, h.2.1, h.2.2.1⟩)⟩

/-! ## Lemmas: traversal -/

theorem SameResources.refl (s : ModelState) : SameResources s s :=
  ⟨rfl, rfl, rfl, rfl, rfl, rfl⟩

theorem loadMaterialTexture_same (c : Constants) (w : World) (m : aiMaterial)
    (t : aiTextureType) (s s' : ModelState) (h : SameResources s s') :
    (loadMaterialTexture c w m t s).1 = (loadMaterialTexture c w m t s').1 ∧
      SameResources (loadMaterialTexture c w m t s).2 (loadMaterialTexture c w m t s').2 := by
  obtain ⟨h1, h2, h3, h4, h5, h6⟩ := h
  cases hf : mapFind s'.texturesLoaded (m.GetTexture0 t) with
  | some p =>
    rw [loadMaterialTexture_hit c w m t s p (by rw [h3]; exact hf),
      loadMaterialTexture_hit c w m t s' p hf]
    exact ⟨rfl, h1, h2, h3, h4, h5, h6⟩
  | none =>
    have hf' : mapFind s.texturesLoaded (m.GetTexture0 t) = none := by rw [h3]; exact hf
    cases hd : w.stbi_load (s'.directory ++ "/" ++ m.GetTexture0 t) with
    | none =>
      rw [loadMaterialTexture_miss_undecoded c w m t s hf' (by rw [h2]; exact hd),
        loadMaterialTexture_miss_undecoded c w m t s' hf hd]
      simp [SameResources, h1, h2, h3, h4, h5, h6]
    | some img =>
      rw [loadMaterialTexture_miss_decoded c w m t s img hf' (by rw [h2]; exact hd),
        loadMaterialTexture_miss_decoded c w m t s' img hf hd]
      simp [SameResources, h1, h2, h3, h4, h5, h6]

theorem resolveRole_same (c : Constants) (w : World) (aiMat : aiMaterial)
    (type : aiTextureType) (set : Material → TexturePtr → Material)
    (acc acc' : Material × ModelState) (hm : acc.1 = acc'.1)
    (h : SameResources acc.2 acc'.2) :
    (resolveRole c w aiMat type set acc).1 = (resolveRole c w aiMat type set acc').1 ∧
      SameResources (resolveRole c w aiMat type set acc).2
        (resolveRole c w aiMat type set acc').2 := by
  unfold resolveRole
  obtain ⟨hp, hs⟩ := loadMaterialTexture_same c w aiMat type acc.2 acc'.2 h
  by_cases hc : aiMat.GetTextureCount type = 0
  · simpa [hc] using ⟨hm, h⟩
  · simp only [ne_eq, hc, not_false_eq_true, if_true]
    exact ⟨by rw [hm, hp], hs⟩

theorem resolveRole_meshes (c : Constants) (w : World) (aiMat : aiMaterial)
    (type : aiTextureType) (set : Material → TexturePtr → Material)
    (acc : Material × ModelState) :
    (resolveRole c w aiMat type set acc).2.meshes = acc.2.meshes := by
  unfold resolveRole
  by_cases hc : aiMat.GetTextureCount type = 0
  · simp [hc]
  · simp only [ne_eq, hc, not_false_eq_true, if_true]
    exact (loadMaterialTexture_frame c w aiMat type acc.2).2.2

theorem resolveRole_override (c : Constants) (w : World) (aiMat : aiMaterial)
    (type : aiTextureType) (set : Material → TexturePtr → Material)
    (acc : Material × ModelState) :
    (resolveRole c w aiMat type set acc).2.materialOverride = acc.2.materialOverride := by
  unfold resolveRole
  by_cases hc : aiMat.GetTextureCount type = 0
  · simp [hc]
  · simp only [ne_eq, hc, not_false_eq_true, if_true]
    exact (loadMaterialTexture_frame c w aiMat type acc.2).1

theorem resolveTextures_same (c : Constants) (w : World) (aiMat : aiMaterial)
    (material : Material) (s s' : ModelState) (h : SameResources s s') :
    (resolveTextures c w aiMat material s).1 = (resolveTextures c w aiMat material s').1 ∧
      SameResources (resolveTextures c w aiMat material s).2
        (resolveTextures c w aiMat material s').2 := by
  rw [resolveTextures_eq_roles, resolveTextures_eq_roles]
  have h1 := resolveRole_same c w aiMat .DIFFUSE
    (fun m p => { m with useTextureAlbedo := true, textureAlbedo := some p })
    (material, s) (material, s') rfl h
  have h2 := resolveRole_same c w aiMat .UNKNOWN
    (fun m p =>
      { m with useTextureMetallicRoughness := true, textureMetallicRoughness := some p })
    _ _ h1.1 h1.2
  have h3 := resolveRole_same c w aiMat .NORMALS
    (fun m p => { m with useTextureNormal := true, textureNormal := some p }) _ _ h2.1 h2.2
  have h4 := resolveRole_same c w aiMat .LIGHTMAP
    (fun m p =>
      { m with useTextureAmbientOcclusion := true, textureAmbientOcclusion := some p })
    _ _ h3.1 h3.2
  exact resolveRole_same c w aiMat .EMISSIVE
    (fun m p => { m with useTextureEmissive := true, textureEmissive := some p }) _ _ h4.1 h4.2

theorem resolveTextures_meshes (c : Constants) (w : World) (aiMat : aiMaterial)
    (material : Material) (s : ModelState) :
    (resolveTextures c w aiMat material s).2.meshes = s.meshes := by
  rw [resolveTextures_eq_roles]
  simp only [resolveRole_meshes]

/-- The outcome of `processMesh` depends on the state only through its
resources, and the mesh list and the override are not touched. -/
theorem processMesh_same (c : Constants) (w : World) (mesh : aiMesh) (scene : aiScene)
    (s s' : ModelState) (h : SameResources s s') :
    (∀ e, processMesh c w mesh scene s' = .error e → processMesh c w mesh scene s = .error e) ∧
      (∀ r', processMesh c w mesh scene s' = .ok r' →
        ∃ r, processMesh c w mesh scene s = .ok r ∧ r.1 = r'.1 ∧ SameResources r.2 r'.2 ∧
          r.2.meshes = s.meshes ∧ r.2.materialOverride = s.materialOverride) := by
  have hov : s.materialOverride = s'.materialOverride := h.1
  cases ho : s'.materialOverride with
  | some m =>
    rw [processMesh_of_override c w mesh scene s m (hov.trans ho),
      processMesh_of_override c w mesh scene s' m ho]
    cases hv : vertexLoop mesh mesh.mNumVertices 0 [] with
    | error e => exact ⟨fun e he => he, fun r' hr' => by cases hr'⟩
    | ok vertices =>
      refine ⟨fun e he => (by cases he), fun r' hr' => ?_⟩
      cases hr'
      exact ⟨_, rfl, rfl, h, rfl, rfl⟩
  | none =>
    cases hm : scene.mMaterials[mesh.mMaterialIndex]? with
    | none =>
      rw [processMesh_of_missing_material c w mesh scene s (hov.trans ho) hm,
        processMesh_of_missing_material c w mesh scene s' ho hm]
      cases hv : vertexLoop mesh mesh.mNumVertices 0 [] with
      | error e => exact ⟨fun e he => he, fun r' hr' => by cases hr'⟩
      | ok vertices => exact ⟨fun e he => he, fun r' hr' => by cases hr'⟩
    | some aiMat =>
      rw [processMesh_of_material c w mesh scene s aiMat (hov.trans ho) hm,
        processMesh_of_material c w mesh scene s' aiMat ho hm]
      cases hv : vertexLoop mesh mesh.mNumVertices 0 [] with
      | error e => exact ⟨fun e he => he, fun r' hr' => by cases hr'⟩
      | ok vertices =>
        obtain ⟨hmat, hs⟩ := resolveTextures_same c w aiMat {} s s' h
        refine ⟨fun e he => (by cases he), fun r' hr' => ?_⟩
        cases hr'
        refine ⟨_, rfl, by simp only [hmat], hs, resolveTextures_meshes c w aiMat {} s, ?_⟩
        rw [resolveTextures_eq_roles]
        simp only [resolveRole_override]

theorem Flattens_cons (base : List Mesh) (m : Mesh) (x : Except Fault ModelState)
    (y : Except Fault (List Mesh × ModelState)) :
    Flattens (base ++ [m]) x y →
      Flattens base x
        (match y with
          | .error e => .error e
          | .ok q => .ok (m :: q.1, q.2)) := by
  intro h
  cases x <;> cases y <;> simp_all [Flattens]

theorem Flattens_seq (base : List Mesh) (x : Except Fault ModelState)
    (y : Except Fault (List Mesh × ModelState))
    (f : ModelState → Except Fault ModelState)
    (g : ModelState → Except Fault (List Mesh × ModelState)) :
    Flattens base x y →
      (∀ s q, SameResources s q → Flattens s.meshes (f s) (g q)) →
      Flattens base
        (match x with
          | .error e => .error e
          | .ok s => f s)
        (match y with
          | .error e => .error e
          | .ok q =>
            match g q.2 with
            | .error e => .error e
            | .ok q' => .ok (q.1 ++ q'.1, q'.2)) := by
  intro h hfg
  cases x with
  | error e => cases y <;> simp_all [Flattens]
  | ok s =>
    cases y with
    | error e => simp [Flattens] at h
    | ok q =>
      obtain ⟨hm, hs⟩ := h
      have h2 := hfg s q.2 hs
      simp only []
      cases hf : f s with
      | error e => cases hg : g q.2 <;> simp_all [Flattens]
      | ok s2 =>
        cases hg : g q.2 with
        | error e => simp_all [Flattens]
        | ok q' =>
          rw [hf, hg] at h2
          obtain ⟨hm2, hs2⟩ := h2
          exact ⟨by rw [hm2, hm, List.append_assoc], hs2⟩

theorem meshLoop_flattens (c : Constants) (w : World) (scene : aiScene) :
    ∀ (refs : List Nat) (s s' : ModelState), SameResources s s' →
      Flattens s.meshes (meshLoop c w scene refs s) (buildAll c w scene refs s')
  | [], s, s', h => by simp [meshLoop, buildAll, Flattens, h]
  | k :: rest, s, s', h => by
    cases hr : readAt scene.mMeshes k with
    | error e => simp [meshLoop, buildAll, hr, Flattens]
    | ok mesh =>
      obtain ⟨herr, hok⟩ := processMesh_same c w mesh scene s s' h
      cases h2 : processMesh c w mesh scene s' with
      | error e' => simp [meshLoop, buildAll, hr, h2, herr e' h2, Flattens]
      | ok r' =>
        obtain ⟨r, h1, hm, hs, hmeshes, _⟩ := hok r' h2
        have ih := meshLoop_flattens c w scene rest
          { r.2 with meshes := r.2.meshes ++ [r.1] } r'.2 hs
        simp only [meshLoop, buildAll, hr, h1, h2]
        rw [← hm]
        have ih' : Flattens (s.meshes ++ [r.1])
            (meshLoop c w scene rest { r.2 with meshes := r.2.meshes ++ [r.1] })
            (buildAll c w scene rest r'.2) := by
          rw [← hmeshes]; exact ih
        exact Flattens_cons s.meshes r.1 _ _ ih'

theorem buildAll_append (c : Constants) (w : World) (scene : aiScene) :
    ∀ (xs ys : List Nat) (s : ModelState),
      buildAll c w scene (xs ++ ys) s =
        match buildAll c w scene xs s with
        | .error e => .error e
        | .ok q =>
          match buildAll c w scene ys q.2 with
          | .error e => .error e
          | .ok q' => .ok (q.1 ++ q'.1, q'.2)
  | [], ys, s => by
    simp only [List.nil_append, buildAll]
    cases buildAll c w scene ys s <;> simp
  | k :: xs, ys, s => by
    simp only [List.cons_append, buildAll]
    cases readAt scene.mMeshes k with
    | error e => rfl
    | ok mesh =>
      simp only []
      cases processMesh c w mesh scene s with
      | error e => rfl
      | ok r =>
        simp only [List.append_eq, buildAll_append c w scene xs ys r.2]
        cases buildAll c w scene xs r.2 with
        | error e => rfl
        | ok q =>
          simp only []
          cases buildAll c w scene ys q.2 with
          | error e => rfl
          | ok q' => simp

theorem print_same (s : ModelState) (line : String) : SameResources (s.print line) s :=
  ⟨rfl, rfl, rfl, rfl, rfl, rfl⟩

theorem SameResources.trans {s t u : ModelState} (h1 : SameResources s t)
    (h2 : SameResources t u) : SameResources s u :=
  ⟨h1.1.trans h2.1, h1.2.1.trans h2.2.1, h1.2.2.1.trans h2.2.2.1,
    h1.2.2.2.1.trans h2.2.2.2.1, h1.2.2.2.2.1.trans h2.2.2.2.2.1,
    h1.2.2.2.2.2.trans h2.2.2.2.2.2⟩

mutual
theorem processNode_flattens (c : Constants) (w : World) (scene : aiScene) :
    ∀ (n : aiNode) (s s' : ModelState), SameResources s s' →
      Flattens s.meshes (processNode c w scene n s) (buildAll c w scene (flattenRefs n) s')
  | .mk mName mMeshes mChildren, s, s', h => by
    rw [flattenRefs, buildAll_append, processNode]
    exact Flattens_seq s.meshes _ _ _ _
      (meshLoop_flattens c w scene mMeshes (s.print ("Process node: " ++ mName)) s'
        ((print_same s _).trans h))
      (fun t q ht => processChildren_flattens c w scene mChildren t q ht)
theorem processChildren_flattens (c : Constants) (w : World) (scene : aiScene) :
    ∀ (cs : List aiNode) (s s' : ModelState), SameResources s s' →
      Flattens s.meshes (processChildren c w scene cs s)
        (buildAll c w scene (flattenChildren cs) s')
  | [], s, s', h => by
    simp [processChildren, flattenChildren, buildAll, Flattens, h]
  | child :: rest, s, s', h => by
    rw [flattenChildren, buildAll_append, processChildren]
    exact Flattens_seq s.meshes _ _ _ _ (processNode_flattens c w scene child s s' h)
      (fun t q ht => processChildren_flattens c w scene rest t q ht)
end

mutual
theorem flattenRefs_length : ∀ n : aiNode, (flattenRefs n).length = totalMeshRefs n
  | .mk _ ms cs => by
    simp [flattenRefs, totalMeshRefs, flattenChildren_length cs]
theorem flattenChildren_length :
    ∀ cs : List aiNode, (flattenChildren cs).length = totalChildRefs cs
  | [] => by simp [flattenChildren, totalChildRefs]
  | c :: cs => by
    simp [flattenChildren, totalChildRefs, flattenRefs_length c, flattenChildren_length cs]
end

theorem buildAll_length (c : Constants) (w : World) (scene : aiScene) :
    ∀ (refs : List Nat) (s : ModelState) (q : List Mesh × ModelState),
      buildAll c w scene refs s = .ok q → q.1.length = refs.length
  | [], s, q, h => by
    simp only [buildAll, Except.ok.injEq] at h
    subst h; rfl
  | k :: rest, s, q, h => by
    simp only [buildAll] at h
    cases hr : readAt scene.mMeshes k with
    | error e => simp [hr] at h
    | ok mesh =>
      cases hp : processMesh c w mesh scene s with
      | error e => simp [hr, hp] at h
      | ok r =>
        cases hb : buildAll c w scene rest r.2 with
        | error e => simp [hr, hp, hb] at h
        | ok q' =>
          simp only [hr, hp, hb, Except.ok.injEq] at h
          subst h
          simp [buildAll_length c w scene rest r.2 q' hb]

theorem buildAll_ok (c : Constants) (w : World) (scene : aiScene) :
    ∀ (refs : List Nat) (s : ModelState), (∀ k ∈ refs, MeshRefOk scene s k) →
      ∃ q, buildAll c w scene refs s = .ok q
  | [], s, _ => ⟨_, rfl⟩
  | k :: rest, s, h => by
    have hk := h k (by simp)
    unfold MeshRefOk at hk
    cases hm : scene.mMeshes[k]? with
    | none => simp [hm] at hk
    | some mesh =>
      simp only [hm] at hk
      obtain ⟨r, hr⟩ := processMesh_ok c w mesh scene s hk.1 hk.2
      obtain ⟨_, hok⟩ := processMesh_same c w mesh scene s s (SameResources.refl s)
      obtain ⟨r0, hr0, _, _, _, hov⟩ := hok r hr
      have hrr : r0 = r := by rw [hr] at hr0; cases hr0; rfl
      subst hrr
      have hrest : ∀ j ∈ rest, MeshRefOk scene r0.2 j := by
        intro j hj
        have := h j (by simp [hj])
        unfold MeshRefOk at this ⊢
        rw [hov]
        exact this
      obtain ⟨q, hq⟩ := buildAll_ok c w scene rest r0.2 hrest
      exact ⟨(r0.1 :: q.1, q.2), by simp [buildAll, readAt, hm, hr, hq]⟩

/-- C3 (traversal order). `flattenRefs n` lists the mesh references below `n` in
depth-first pre-order and has as many entries as the tree has mesh references.
`processNode` does what building those references one after the other does: the
same fault, or the built meshes appended, in that order, to the meshes that were
already in the sequence, with the same texture cache, heap and GL trace. When
every referenced mesh index is valid and every referenced mesh can be built, the
traversal returns. -/
theorem traversal_order (c : Constants) (w : World) (scene : aiScene) (n : aiNode)
    (s : ModelState) :
    (flattenRefs n).length = totalMeshRefs n ∧
      (∀ e, buildAll c w scene (flattenRefs n) s = .error e →
        processNode c w scene n s = .error e) ∧
      (∀ q, buildAll c w scene (flattenRefs n) s = .ok q →
        ∃ s', processNode c w scene n s = .ok s' ∧ s'.meshes = s.meshes ++ q.1 ∧
          q.1.length = totalMeshRefs n ∧ SameResources s' q.2) ∧
      ((∀ k ∈ flattenRefs n, MeshRefOk scene s k) →
        ∃ q s', buildAll c w scene (flattenRefs n) s = .ok q ∧
          processNode c w scene n s = .ok s' ∧ s'.meshes = s.meshes ++ q.1 ∧
          q.1.length = totalMeshRefs n) := by
  have hf := processNode_flattens c w scene n s s (SameResources.refl s)
  have herr : ∀ e, buildAll c w scene (flattenRefs n) s = .error e →
      processNode c w scene n s = .error e := by
    intro e he
    rw [he] at hf
    cases hp : processNode c w scene n s with
    | error e' => rw [hp] at hf; simp only [Flattens] at hf; rw [hf]
    | ok s' => rw [hp] at hf; simp [Flattens] at hf
  have hok : ∀ q, buildAll c w scene (flattenRefs n) s = .ok q →
      ∃ s', processNode c w scene n s = .ok s' ∧ s'.meshes = s.meshes ++ q.1 ∧
        q.1.length = totalMeshRefs n ∧ SameResources s' q.2 := by
    intro q hq
    have hlen := buildAll_length c w scene _ s q hq
    rw [hq] at hf
    cases hp : processNode c w scene n s with
    | error e' => rw [hp] at hf; simp [Flattens] at hf
    | ok s' =>
      rw [hp] at hf
      simp only [Flattens] at hf
      exact ⟨s', rfl, hf.1, by rw [hlen, flattenRefs_length], hf.2⟩
  refine ⟨flattenRefs_length n, herr, hok, fun hvalid => ?_⟩
  obtain ⟨q, hq⟩ := buildAll_ok c w scene _ s hvalid
  obtain ⟨s', hs', hm, hl, _⟩ := hok q hq
  exact ⟨q, s', hq, hs', hm, hl⟩

/-- C3 on a root with one mesh and a child with two. -/
theorem traversal_order_witness :
    (∀ k ∈ flattenRefs demoRoot, MeshRefOk demoScene demoOverrideState k) ∧
      flattenRefs demoRoot = [0, 1, 0] ∧
      ∃ q s', buildAll khronos demoWorld demoScene (flattenRefs demoRoot) demoOverrideState =
          .ok q ∧
        processNode khronos demoWorld demoScene demoRoot demoOverrideState = .ok s' ∧
        s'.meshes = demoOverrideState.meshes ++ q.1 ∧ q.1.length = totalMeshRefs demoRoot :=
  ⟨by decide, by decide,
    (traversal_order khronos demoWorld demoScene demoRoot demoOverrideState).2.2.2
      (by decide)⟩

/-- C8 (scene load failure), evaluated. For a scene flagged incomplete that has a
root node, `loadModel` prints the error and goes on: the traversal runs and
three meshes are built. For a null scene and for a scene without root node it
prints the error and then dereferences the null pointer. -/
theorem scene_failure_falls_through :
    sceneRejected khronos (demoWorld.ReadFile "assets/scene.gltf").scene = true ∧
      (loadModel khronos demoWorld "assets/scene.gltf" demoFresh).toOption.map
          (fun s => (s.meshes.length, s.cout)) =
        some (3, ["ERROR::ASSIMP::incomplete", "Process node: root", "Process node: child"]) ∧
      (demoWorld.ReadFile "assets/absent.gltf").scene.isNone = true ∧
      loadModel khronos demoWorld "assets/absent.gltf" demoFresh = .error .nullDereference ∧
      sceneRejected khronos (demoWorld.ReadFile "assets/rootless.gltf").scene = true ∧
      loadModel khronos demoWorld "assets/rootless.gltf" demoFresh = .error .nullDereference :=
  ⟨by decide, by decide, by decide, rfl, by decide, rfl⟩
end NanoEngine
